import Mathlib

/-!
Verification of the booking-availability and booking-lifecycle subsystem of a
WhatsApp hotel-booking assistant.  The data store is a spreadsheet; the model
below is a shallow embedding of the Python sources (`google_sheets.py`,
`background_tasks.py`, `langchain_agent.py`): sheets are lists of rows of
strings, dates are (year, month, day) triples, and every stateful operation is
explicit state passing on a `SheetsState` record.

String primitives are implemented over `List Char` (structural recursion) so
that every definition is executable by the kernel; they reproduce the Python
semantics of `split`, `strip`, `lower`, substring tests and `%Y-%m-%d`
parsing on the ASCII data the sheets hold.
-/

namespace ChatbotSpec

/-- Characters treated as whitespace by Python `str.strip()` (ASCII part). -/
def isPySpace (c : Char) : Bool :=
  c = ' ' || c = '\t' || c = '\n' || c = '\r' || c = '\x0b' || c = '\x0c'

/-- Python `str.strip()`. -/
def pyStrip (s : String) : String :=
  String.mk (((s.data.dropWhile isPySpace).reverse.dropWhile isPySpace).reverse)

/-- ASCII lower-casing of one character (Python `str.lower` on sheet data). -/
def charLower (c : Char) : Char :=
  if 65 ≤ c.toNat ∧ c.toNat ≤ 90 then Char.ofNat (c.toNat + 32) else c

/-- Python `str.lower()`. -/
def pyLower (s : String) : String := String.mk (s.data.map charLower)

/-- Splitting worker: scans the input, breaking at each leftmost occurrence of
the (nonempty) separator, like Python `str.split(sep)`.  `fuel` bounds the
recursion and is initialised to the length of the input. -/
def pySplitGo (sep : List Char) : Nat → List Char → List Char → List (List Char)
  | _, [], cur => [cur.reverse]
  | 0, s, cur => [cur.reverse ++ s]
  | Nat.succ f, c :: rest, cur =>
    if sep.isPrefixOf (c :: rest) then
      cur.reverse :: pySplitGo sep f (rest.drop (sep.length - 1)) []
    else
      pySplitGo sep f rest (c :: cur)

/-- Python `s.split(sep)` for a nonempty separator. -/
def pySplit (s sep : String) : List String :=
  (pySplitGo sep.data s.data.length s.data []).map String.mk

/-- Python `pat in s` substring test, for nonempty `pat`. -/
def strContains (s pat : String) : Bool := decide (1 < (pySplit s pat).length)

/-- Python `' '.join(l)` / `', '.join(l)` etc. -/
def pyJoin (sep : String) : List String → String
  | [] => ""
  | [x] => x
  | x :: xs => x ++ sep ++ pyJoin sep xs

/-- Decimal digits of a natural number, most significant first. -/
def natDigitsGo : Nat → Nat → List Char
  | 0, _ => []
  | Nat.succ f, n =>
    if n < 10 then [Char.ofNat (48 + n)]
    else natDigitsGo f (n / 10) ++ [Char.ofNat (48 + n % 10)]

/-- Python `str(n)` for a natural number. -/
def natToStr (n : Nat) : String := String.mk (natDigitsGo (n + 1) n)

/-- Python `str(i)` for an integer. -/
def intToStr (i : Int) : String :=
  if i < 0 then "-" ++ natToStr i.natAbs else natToStr i.natAbs

/-- Parse an all-digit string into a natural number (`None` otherwise). -/
def digitsToNat (s : String) : Option Nat :=
  if s.data ≠ [] ∧ s.data.all (fun c => 48 ≤ c.toNat ∧ c.toNat ≤ 57) then
    some (s.data.foldl (fun n c => n * 10 + (c.toNat - 48)) 0)
  else none

/-- A calendar date as produced by `datetime.strptime(s, "%Y-%m-%d").date()`. -/
structure PyDate where
  year : Nat
  month : Nat
  day : Nat
deriving DecidableEq, Repr

/-- Python date comparison `a < b`: lexicographic on (year, month, day),
which agrees with chronological order on calendar dates. -/
def dateLt (a b : PyDate) : Bool :=
  decide (a.year < b.year ∨ (a.year = b.year ∧
    (a.month < b.month ∨ (a.month = b.month ∧ a.day < b.day))))

/-- Python date comparison `a <= b`. -/
def dateLe (a b : PyDate) : Bool := dateLt a b || decide (a = b)

/-- Gregorian leap-year test (as in Python's `calendar`/`datetime`). -/
def isLeapYear (y : Nat) : Bool :=
  y % 4 = 0 && (y % 100 ≠ 0 || y % 400 = 0)

/-- Number of days in a month, as validated by `datetime.strptime`. -/
def daysInMonth (y m : Nat) : Nat :=
  if m = 2 then (if isLeapYear y then 29 else 28)
  else if m = 4 ∨ m = 6 ∨ m = 9 ∨ m = 11 then 30
  else 31

/-- `datetime.strptime(s, "%Y-%m-%d").date()`: three dash-separated decimal
fields (year up to 4 digits, month and day up to 2), with the month in 1..12
and the day valid for that month; any other input raises `ValueError`,
modelled as `none`. -/
def parseDate (s : String) : Option PyDate :=
  match pySplit s "-" with
  | [ys, ms, ds] =>
    if ys.data.length ≤ 4 ∧ ms.data.length ≤ 2 ∧ ds.data.length ≤ 2 then
      match digitsToNat ys, digitsToNat ms, digitsToNat ds with
      | some y, some m, some d =>
        if 1 ≤ m ∧ m ≤ 12 ∧ 1 ≤ d ∧ d ≤ daysInMonth y m then
          some ⟨y, m, d⟩
        else none
      | _, _, _ => none
    else none
  | _ => none

/-- English month names, as produced by `strftime("%B")`. -/
def pyMonthName (m : Nat) : String :=
  match m with
  | 1 => "January" | 2 => "February" | 3 => "March" | 4 => "April"
  | 5 => "May" | 6 => "June" | 7 => "July" | 8 => "August"
  | 9 => "September" | 10 => "October" | 11 => "November" | 12 => "December"
  | _ => ""

/-- Month number from an English month name, case-insensitively
(`strptime`'s `%B`). -/
def monthFromName (s : String) : Option Nat :=
  (List.range 12).findSome? (fun i =>
    if pyLower s = pyLower (pyMonthName (i + 1)) then some (i + 1) else none)

/-- `datetime.strptime(s, "%B %d, %Y")`: month name, day, comma, year. -/
def parseLongDate (s : String) : Option PyDate :=
  match pySplit s ", " with
  | [md, ys] =>
    match pySplit md " " with
    | [mn, ds] =>
      if ys.data.length ≤ 4 ∧ ds.data.length ≤ 2 then
        match monthFromName mn, digitsToNat ys, digitsToNat ds with
        | some m, some y, some d =>
          if 1 ≤ d ∧ d ≤ daysInMonth y m then some ⟨y, m, d⟩ else none
        | _, _, _ => none
      else none
    | _ => none
  | _ => none

/-- Zero-padding to two digits (`%m`, `%d` in `strftime`). -/
def pad2 (n : Nat) : String :=
  if n < 10 then "0" ++ natToStr n else natToStr n

/-- Zero-padding to four digits (`%Y` in `strftime`). -/
def pad4 (n : Nat) : String :=
  if n < 10 then "000" ++ natToStr n
  else if n < 100 then "00" ++ natToStr n
  else if n < 1000 then "0" ++ natToStr n
  else natToStr n

/-- `d.strftime('%Y-%m-%d')`. -/
def fmtDate (d : PyDate) : String :=
  pad4 d.year ++ "-" ++ pad2 d.month ++ "-" ++ pad2 d.day

/-- `GoogleSheetsManager._dates_overlap` (google_sheets.py:1296-1301):
overlap iff `check_in < booked_check_out and check_out > booked_check_in`. -/
def datesOverlap (checkIn checkOut bookedCheckIn bookedCheckOut : PyDate) : Bool :=
  dateLt checkIn bookedCheckOut && dateLt bookedCheckIn checkOut

/-- Body of the per-entry loop of `_parse_booked_dates`
(google_sheets.py:1266-1292): one comma-separated piece of the
`Booked Dates` string, yielding a date range or nothing. -/
def parseBookedEntry (dateRange : String) : Option (PyDate × PyDate) :=
  let dr := pyStrip dateRange
  if dr = "" then none
  else
    let parts :=
      if strContains dr " to " then pySplit dr " to "
      else if strContains dr "-" ∧ 4 ≤ (dr.data.filter (fun c => c = '-')).length then
        -- Python `date_range.split('-', 2)` (three pieces since there are at
        -- least four dashes), then the first two pieces are re-joined.
        match pySplit dr "-" with
        | p0 :: p1 :: rest => [p0 ++ "-" ++ p1, pyJoin "-" rest]
        | l => l
      else []
    match parts with
    | [a, b] =>
      match parseDate (pyStrip a), parseDate (pyStrip b) with
      | some ci, some co => some (ci, co)
      | _, _ => none
    | _ => none

/-- `GoogleSheetsManager._parse_booked_dates` (google_sheets.py:1251-1294). -/
def parseBookedDates (bookedDatesStr : String) : List (PyDate × PyDate) :=
  if pyStrip bookedDatesStr = "" then []
  else (pySplit (pyStrip bookedDatesStr) ",").filterMap parseBookedEntry

/-- `GoogleSheetsManager._cleanup_expired_booked_dates`
(google_sheets.py:1387-1396): keep only ranges with `check_out >= today`. -/
def cleanupExpiredBookedDates (today : PyDate) (bookedRanges : List (PyDate × PyDate)) :
    List (PyDate × PyDate) :=
  bookedRanges.filter (fun r => dateLe today r.2)

/-! ### The spreadsheet state -/

/-- One worksheet: its title and its grid of rows (`get_all_values`). -/
structure Sheet where
  name : String
  rows : List (List String)
deriving DecidableEq, Repr

/-- The spreadsheet-backed store together with the ambient clock
(`datetime.now()`).  `cache` is the set of sheet names with a live
`_sheet_data_cache` entry: in this single-writer model cached data always
equals the live data, so cache entries affect only TTL staleness and what is
tracked is which entries a write invalidates (`_invalidate_sheet_cache` pops
the key).  `nowStr` is `datetime.now().isoformat()` and `nowMs` is
`int(time.time() * 1000) % 1000000` (used for booking IDs). -/
structure SheetsState where
  sheets : List Sheet
  cache : List String
  today : PyDate
  hour : Nat
  nowStr : String
  nowMs : Nat
deriving DecidableEq, Repr

def findSheet (s : SheetsState) (name : String) : Option Sheet :=
  s.sheets.find? (fun sh => sh.name == name)

def sheetRows (s : SheetsState) (name : String) : List (List String) :=
  ((findSheet s name).map Sheet.rows).getD []

def setSheetRows (s : SheetsState) (name : String) (rows : List (List String)) :
    SheetsState :=
  { s with sheets := s.sheets.map (fun sh => if sh.name == name then ⟨sh.name, rows⟩ else sh) }

/-- `add_worksheet`: a new blank worksheet appended to the spreadsheet. -/
def addSheet (s : SheetsState) (name : String) (rows : List (List String)) : SheetsState :=
  { s with sheets := s.sheets ++ [⟨name, rows⟩] }

/-- `_invalidate_sheet_cache(name)` (google_sheets.py:240): pop the entry. -/
def invalidateSheetCache (s : SheetsState) (name : String) : SheetsState :=
  { s with cache := s.cache.filter (fun n => n != name) }

/-- `discover_sheets` (google_sheets.py:171). -/
def discoverSheets (s : SheetsState) : List String := s.sheets.map Sheet.name

/-- `read_all_data` (google_sheets.py:216): the sheet's current rows, `none`
when the worksheet does not exist (the read error path returns `None`). -/
def readAllData (s : SheetsState) (name : String) : Option (List (List String)) :=
  (findSheet s name).map Sheet.rows

def bookingTypeWords : List String := ["booking", "reservation", "order"]

def hotelTypeWords : List String :=
  ["hotel", "room", "accommodation", "villa", "suite", "allocation"]

def bookingHeaderWords : List String :=
  ["booking id", "check-in", "check-out", "customer name"]

def hotelHeaderWords : List String :=
  ["room id", "room name", "room type", "price", "available"]

/-- `detect_sheet_type` (google_sheets.py:181-214): keyword match on the name,
falling back to header inspection. -/
def detectSheetType (s : SheetsState) (name : String) : String :=
  let lower := pyLower name
  if bookingTypeWords.any (fun w => strContains lower w) then "booking"
  else if hotelTypeWords.any (fun w => strContains lower w) then "hotel"
  else
    match findSheet s name with
    | none => "unknown"
    | some sh =>
      if sh.rows.length < 2 then "unknown"
      else
        let joined := pyJoin " " ((sh.rows.headD []).map pyLower)
        if bookingHeaderWords.any (fun w => strContains joined w) then "booking"
        else if hotelHeaderWords.any (fun w => strContains joined w) then "hotel"
        else "unknown"

/-- The `'booking' in s.lower()` sheet filter of
`check_room_availability_by_date` (google_sheets.py:732). -/
def bookingNamedSheets (s : SheetsState) : List String :=
  (discoverSheets s).filter (fun n => strContains (pyLower n) "booking")

/-- The `detect_sheet_type(s) == 'hotel'` sheet filter used by the room
lookups (e.g. google_sheets.py:1325). -/
def hotelTypedSheets (s : SheetsState) : List String :=
  (discoverSheets s).filter (fun n => detectSheetType s n == "hotel")

/-! ### Row-scan availability check (`check_room_availability_by_date`) -/

/-- Column-detection loop of `check_room_availability_by_date`
(google_sheets.py:748-757): per header the first matching category wins
(if/elif), and a later matching header overwrites an earlier index.
Returns (room id, check-in, check-out, status) column indices. -/
def detectBookingCols (headers : List String) :
    Option Nat × Option Nat × Option Nat × Option Nat :=
  headers.enum.foldl (fun acc p =>
    let h := pyLower p.2
    if strContains h "room id" || strContains h "room_id" then
      (some p.1, acc.2.1, acc.2.2.1, acc.2.2.2)
    else if strContains h "check-in" || strContains h "check_in" then
      (acc.1, some p.1, acc.2.2.1, acc.2.2.2)
    else if strContains h "check-out" || strContains h "check_out" then
      (acc.1, acc.2.1, some p.1, acc.2.2.2)
    else if strContains h "status" then
      (acc.1, acc.2.1, acc.2.2.1, some p.1)
    else acc) (none, none, none, none)

/-- Per-row conflict test of `check_room_availability_by_date`
(google_sheets.py:763-800): skip short rows, rows with a blank or different
room id, and (outside the pending sheet) rows whose status is not
approved/confirmed/completed; then parse the row's dates and test overlap.
Returns the conflicting row's raw date strings when it overlaps. -/
def statusSkipTest (isPendingSheet : Bool) (statusCol : Option Nat)
    (row : List String) : Bool :=
  if isPendingSheet then false
  else
    match statusCol with
    | none => false
    | some sc =>
      if sc < row.length then
        !(["approved", "confirmed", "completed"].contains
            (pyLower (pyStrip (row.getD sc ""))))
      else false

def bookingRowConflict (isPendingSheet : Bool) (roomIdCol checkInCol checkOutCol : Nat)
    (statusCol : Option Nat) (roomId : String) (checkInDate checkOutDate : PyDate)
    (row : List String) : Option (String × String) :=
  if row.length ≤ max roomIdCol (max checkInCol checkOutCol) then none
  else if row.getD roomIdCol "" = "" ∨ pyStrip (row.getD roomIdCol "") = "" then none
  else if pyStrip (row.getD roomIdCol "") ≠ pyStrip roomId then none
  else
    if statusSkipTest isPendingSheet statusCol row then none
    else
      match parseDate (pyStrip (row.getD checkInCol "")),
            parseDate (pyStrip (row.getD checkOutCol "")) with
      | some bci, some bco =>
        if datesOverlap checkInDate checkOutDate bci bco then
          some (pyStrip (row.getD checkInCol ""), pyStrip (row.getD checkOutCol ""))
        else none
      | _, _ => none

/-- One booking sheet's scan by `check_room_availability_by_date`
(google_sheets.py:736-800): `none` when this sheet produces no conflict
(missing columns, too short, or no conflicting row). -/
def sheetConflict (roomId : String) (ci co : PyDate) (sheetName : String)
    (data : List (List String)) : Option (String × String) :=
  if data.length < 2 then none
  else
    match detectBookingCols (data.headD []) with
    | (some ric, some cic, some coc, sc) =>
      (data.drop 1).findSome?
        (bookingRowConflict (strContains (pyLower sheetName) "pending")
          ric cic coc sc roomId ci co)
    | _ => none

/-- `check_room_availability_by_date` (google_sheets.py:707-813). -/
def checkRoomAvailabilityByDate (s : SheetsState) (roomId checkIn checkOut : String) :
    Bool × String :=
  match parseDate checkIn, parseDate checkOut with
  | some cid, some cod =>
    if dateLe cod cid then (false, "Check-in date must be before check-out date.")
    else if dateLt cid s.today then (false, "Check-in date cannot be in the past.")
    else
      match (bookingNamedSheets s).findSome? (fun n =>
          match readAllData s n with
          | none => none
          | some data => sheetConflict roomId cid cod n data) with
      | some c =>
        (false, "Room is already booked from " ++ c.1 ++ " to " ++ c.2 ++ ".")
      | none => (true, "Room is available for these dates.")
  | _, _ => (false, "Invalid date format. Please use YYYY-MM-DD format.")

/-! ### Booked-dates-column availability check -/

/-- Column detection of `check_room_availability_from_booked_dates_column`
(google_sheets.py:1339-1344): (room id, booked dates) column indices. -/
def detectRoomSheetCols (headers : List String) : Option Nat × Option Nat :=
  headers.enum.foldl (fun acc p =>
    let h := pyLower p.2
    if strContains h "room id" || strContains h "room_id" then (some p.1, acc.2)
    else if strContains h "booked dates" || strContains h "booked_dates" then (acc.1, some p.1)
    else acc) (none, none)

/-- Booked-dates test on the found room row
(google_sheets.py:1358-1372): parse the column, drop expired ranges, return
the first overlapping range (`none` = no conflict). -/
def roomRowOutcome (today : PyDate) (bookedDatesCol : Option Nat) (ci co : PyDate)
    (row : List String) : Option (PyDate × PyDate) :=
  match bookedDatesCol with
  | some bc =>
    if bc < row.length then
      (cleanupExpiredBookedDates today
        (parseBookedDates (pyStrip (row.getD bc "")))).find?
        (fun r => datesOverlap ci co r.1 r.2)
    else none
  | none => none

/-- One hotel sheet's scan by `check_room_availability_from_booked_dates_column`
(google_sheets.py:1327-1376): `none` when the room is not found in this sheet;
`some outcome` when found, where `outcome` is `none` for "available" and
`some range` for a conflicting booked range. -/
def sheetRoomScan (today : PyDate) (roomId : String) (ci co : PyDate)
    (data : List (List String)) : Option (Option (PyDate × PyDate)) :=
  if data.length < 2 then none
  else
    match detectRoomSheetCols (data.headD []) with
    | (some ric, bdc) =>
      match (data.drop 1).find? (fun row =>
          decide (ric < row.length) && (pyStrip (row.getD ric "") == pyStrip roomId)) with
      | none => none
      | some row => some (roomRowOutcome today bdc ci co row)
    | (none, _) => none

/-- `check_room_availability_from_booked_dates_column`
(google_sheets.py:1303-1385). -/
def checkRoomAvailabilityFromBookedDatesColumn (s : SheetsState)
    (roomId checkIn checkOut : String) : Bool × String :=
  match parseDate checkIn, parseDate checkOut with
  | some cid, some cod =>
    if dateLe cod cid then (false, "Check-in date must be before check-out date.")
    else if dateLt cid s.today then (false, "Check-in date cannot be in the past.")
    else
      match (hotelTypedSheets s).findSome? (fun n =>
          match readAllData s n with
          | none => none
          | some data => sheetRoomScan s.today roomId cid cod data) with
      | some (some r) =>
        (false, "Room is already booked from " ++ fmtDate r.1 ++ " to " ++ fmtDate r.2 ++ ".")
      | some none => (true, "Room is available for these dates.")
      | none => (false, "Room not found.")
  | _, _ => (false, "Invalid date format. Please use YYYY-MM-DD format.")

/-! ### Numeric cell parsing -/

def isDigitChar (c : Char) : Bool := 48 ≤ c.toNat && c.toNat ≤ 57

def natFromDigits (l : List Char) : Nat :=
  l.foldl (fun n c => n * 10 + (c.toNat - 48)) 0

/-- `int(float(s))` on the numeric strings found in sheet cells: optional
sign, digits with an optional fractional part, truncated toward zero.
Strings `float()` rejects give `none` (the source catches the exception). -/
def parsePyNumber (s : String) : Option Int :=
  match (pyStrip s).data with
  | [] => none
  | l =>
    let sign : Int := match l with
      | '-' :: _ => -1
      | _ => 1
    let u := match l with
      | '-' :: rest => rest
      | '+' :: rest => rest
      | _ => l
    match pySplit (String.mk u) "." with
    | [ip] =>
      if ip.data ≠ [] ∧ ip.data.all isDigitChar then
        some (sign * (natFromDigits ip.data : Int))
      else none
    | [ip, fp] =>
      if ip.data.all isDigitChar ∧ fp.data.all isDigitChar ∧ (ip.data ≠ [] ∨ fp.data ≠ []) then
        some (sign * (natFromDigits ip.data : Int))
      else none
    | _ => none

/-- Days from civil epoch (proleptic Gregorian), used only for
`(check_out - check_in).days` in price computations. -/
def dateRataDie (d : PyDate) : Int :=
  let y : Int := if d.month ≤ 2 then (d.year : Int) - 1 else (d.year : Int)
  let era : Int := y / 400
  let yoe : Int := y - era * 400
  let mp : Int := ((d.month : Int) + 9) % 12
  let doy : Int := (153 * mp + 2) / 5 + (d.day : Int) - 1
  let doe : Int := yoe * 365 + yoe / 4 - yoe / 100 + doy
  era * 146097 + doe - 719468

/-- `(b - a).days`. -/
def dateDiffDays (a b : PyDate) : Int := dateRataDie b - dateRataDie a

/-! ### Available-room search (`get_available_rooms_by_type`) -/

structure AvailableRoom where
  roomId : String
  roomName : String
  price : String
  sheetName : String
deriving DecidableEq, Repr

/-- Column detection of `get_available_rooms_by_type`
(google_sheets.py:1626-1635): (room id, room name, price, booked dates). -/
def detectAvailCols (headers : List String) :
    Option Nat × Option Nat × Option Nat × Option Nat :=
  headers.enum.foldl (fun acc p =>
    let h := pyLower p.2
    if strContains h "room id" || strContains h "room_id" then
      (some p.1, acc.2.1, acc.2.2.1, acc.2.2.2)
    else if strContains h "room name" || strContains h "room_name" then
      (acc.1, some p.1, acc.2.2.1, acc.2.2.2)
    else if strContains h "price" then
      (acc.1, acc.2.1, some p.1, acc.2.2.2)
    else if strContains h "booked dates" || strContains h "booked_dates" then
      (acc.1, acc.2.1, acc.2.2.1, some p.1)
    else acc) (none, none, none, none)

/-- Room-type match of `get_available_rooms_by_type`
(google_sheets.py:1654-1665): substring containment either way, with a
keyword fallback for the known type names. -/
def roomTypeMatches (roomType roomName : String) : Bool :=
  let rt := pyLower roomType
  let rn := pyLower roomName
  if strContains rn rt || strContains rt rn then true
  else if !(["twin", "double", "villa", "two bed room villa"].contains rt) then false
  else if strContains rt "twin" && !(strContains rn "twin") then false
  else if strContains rt "double" && !(strContains rn "double") then false
  else if strContains rt "villa" && !(strContains rn "villa") then false
  else true

/-- Per-sheet body of `get_available_rooms_by_type`
(google_sheets.py:1612-1697). -/
def sheetAvailableRooms (today : PyDate) (roomType : String) (cid cod : PyDate)
    (sheetName : String) (data : List (List String)) : List AvailableRoom :=
  if data.length < 2 then []
  else
    match detectAvailCols (data.headD []) with
    | (some ric, rnc, pc, bdc) =>
      (data.drop 1).filterMap (fun row =>
        if row.length ≤ ric then none
        else
          let roomId := pyStrip (row.getD ric "")
          if roomId = "" then none
          else
            let roomName :=
              match rnc with
              | some c => if c < row.length then pyStrip (row.getD c "") else ""
              | none => ""
            if !(roomTypeMatches roomType roomName) then none
            else
              let isAvail :=
                match bdc with
                | some c =>
                  if c < row.length then
                    ((cleanupExpiredBookedDates today
                        (parseBookedDates (pyStrip (row.getD c "")))).find?
                      (fun r => datesOverlap cid cod r.1 r.2)).isNone
                  else true
                | none => true
              if !isAvail then none
              else
                let price :=
                  match pc with
                  | some c => if c < row.length then pyStrip (row.getD c "") else ""
                  | none => ""
                some ⟨roomId, (if roomName = "" then roomType else roomName), price, sheetName⟩)
    | _ => []

/-- `get_available_rooms_by_type` (google_sheets.py:1593-1705). -/
def getAvailableRoomsByType (s : SheetsState) (roomType checkIn checkOut : String) :
    List AvailableRoom :=
  match parseDate checkIn, parseDate checkOut with
  | some cid, some cod =>
    (hotelTypedSheets s).flatMap (fun n =>
      match readAllData s n with
      | none => []
      | some data => sheetAvailableRooms s.today roomType cid cod n data)
  | _, _ => []

/-! ### Sorted insertion into the pending sheet -/

def pendingBookingsSheetName : String := "Pending Bookings"

/-- `_get_or_create_pending_bookings_sheet` (google_sheets.py:1205-1220):
a blank worksheet is created when missing. -/
def getOrCreatePendingSheet (s : SheetsState) : SheetsState :=
  match findSheet s pendingBookingsSheetName with
  | some _ => s
  | none => addSheet s pendingBookingsSheetName []

def standardHeaders : List String :=
  ["Booking ID", "Customer Name", "Phone", "Check-in", "Check-out",
   "Room Type", "Room Name", "Room ID", "Num Rooms", "Guests",
   "Price", "Status", "Created At", "Notes"]

/-- Monthly archive headers: `Created At` renamed to `Approved At`
(google_sheets.py:1239-1241). -/
def monthlyHeaders : List String :=
  ["Booking ID", "Customer Name", "Phone", "Check-in", "Check-out",
   "Room Type", "Room Name", "Room ID", "Num Rooms", "Guests",
   "Price", "Status", "Approved At", "Notes"]

/-- gspread `insert_row(r, idx)` (1-based); an index past the current data
appends. -/
def wsInsertRowAt (rows : List (List String)) (idx1 : Nat) (r : List String) :
    List (List String) :=
  rows.take (idx1 - 1) ++ r :: rows.drop (idx1 - 1)

/-- gspread `delete_rows(idx)` (1-based). -/
def wsDeleteRowAt (rows : List (List String)) (idx1 : Nat) : List (List String) :=
  rows.take (idx1 - 1) ++ rows.drop idx1

/-- Write one cell of a row (0-based), padding with blanks as the sheet grid
does when the row is shorter than the column index. -/
def setCellIn (row : List String) (c0 : Nat) (v : String) : List String :=
  (row ++ List.replicate (c0 + 1 - row.length) "").set c0 v

/-- gspread `update_cell(r, c, v)` (1-based). -/
def wsUpdateCellAt (rows : List (List String)) (r1 c1 : Nat) (v : String) :
    List (List String) :=
  match rows.get? (r1 - 1) with
  | some row => rows.set (r1 - 1) (setCellIn row (c1 - 1) v)
  | none => rows

def monthNamesList : List String :=
  ["January", "February", "March", "April", "May", "June", "July", "August",
   "September", "October", "November", "December"]

/-- The month-header cell test used across the pending-sheet code:
a comma plus an English month name. -/
def isMonthHeaderCell (cell : String) : Bool :=
  strContains cell "," && monthNamesList.any (fun m => strContains cell m)

/-- The header-row test `any(h in ' '.join(row[:5]) for h in [...])`. -/
def headerRowTest (row : List String) : Bool :=
  ["Booking ID", "Customer Name"].any
    (fun h => strContains (pyJoin " " ((row.take 5).map pyStrip)) h)

/-- `f"{month_name}, {year}"` (google_sheets.py:580). -/
def monthHeaderText (d : PyDate) : String :=
  pyMonthName d.month ++ ", " ++ natToStr d.year

/-- Month/year recovery from a month-header cell
(google_sheets.py:611-616); failures are swallowed (`except: pass`). -/
def parseMonthHeaderDate (cell : String) : Option PyDate :=
  match pySplit cell "," with
  | p0 :: p1 :: _ =>
    match monthFromName (pyStrip p0), digitsToNat (pyStrip p1) with
    | some m, some y => some ⟨y, m, 1⟩
    | _, _ => none
  | _ => none

/-- 1-based index of the first row satisfying `p`. -/
def findRowIdx1 (rows : List (List String)) (p : List String → Bool) : Option Nat :=
  (rows.enum.find? (fun q => p q.2)).map (fun q => q.1 + 1)

/-- Month-section insert-position loop of `_find_or_create_month_section`
(google_sheets.py:604-624): newest month first; header cells that fail to
parse are skipped without moving the position. -/
def monthInsertPosGo (d : PyDate) : List (List String) → Nat → Nat → Nat
  | [], _, pos => pos
  | row :: rest, idx, pos =>
    if row ≠ [] then
      let cell := pyStrip (row.headD "")
      if isMonthHeaderCell cell then
        match parseMonthHeaderDate cell with
        | some ed =>
          if dateLe ed d then idx
          else monthInsertPosGo d rest (idx + 1) (idx + 1)
        | none => monthInsertPosGo d rest (idx + 1) pos
      else monthInsertPosGo d rest (idx + 1) pos
    else monthInsertPosGo d rest (idx + 1) pos

/-- `_find_or_create_month_section` (google_sheets.py:574-665): returns the
updated rows and the row number following the section's empty row.  Cell
merging and bold formatting have no effect on the data grid. -/
def findOrCreateMonthSection (rows : List (List String)) (d : PyDate) :
    List (List String) × Nat :=
  let text := monthHeaderText d
  match findRowIdx1 rows (fun row => !row.isEmpty && (pyStrip (row.headD "") == text)) with
  | some idx => (rows, idx + 2)
  | none =>
    let insertPos := monthInsertPosGo d rows 1 1
    let rows1 := wsInsertRowAt rows insertPos
      (text :: List.replicate (standardHeaders.length - 1) "")
    let hasTop := !rows1.isEmpty && headerRowTest (rows1.headD [])
    let rows2 := wsInsertRowAt rows1 (insertPos + 1)
      (List.replicate standardHeaders.length "")
    if hasTop then (rows2, insertPos + 2)
    else (wsInsertRowAt rows2 1 standardHeaders, insertPos + 1 + 2)

/-- In-section scan of `_find_insertion_point_in_month_section`
(google_sheets.py:674-699); `idx0` is the Python 0-based row index. -/
def insertionPointGo (d : PyDate) : List (List String) → Nat → Nat → Nat
  | [], _, pos => pos
  | row :: rest, idx0, pos =>
    if row.length < 4 then insertionPointGo d rest (idx0 + 1) pos
    else if !(row.headD "" == "") && isMonthHeaderCell (row.headD "") then pos
    else if headerRowTest row then insertionPointGo d rest (idx0 + 1) pos
    else
      match parseDate (pyStrip (row.getD 3 "")) with
      | some rci =>
        if dateLe rci d then idx0 + 1
        else insertionPointGo d rest (idx0 + 1) (idx0 + 2)
      | none => insertionPointGo d rest (idx0 + 1) pos

/-- `_find_insertion_point_in_month_section` (google_sheets.py:667-705). -/
def findInsertionPointInMonthSection (rows : List (List String))
    (sectionStartRow : Nat) (d : PyDate) : Nat :=
  insertionPointGo d (rows.drop (sectionStartRow - 1)) (sectionStartRow - 1) sectionStartRow

/-- `_insert_booking_sorted` (google_sheets.py:520-572). -/
def insertBookingSorted (rows : List (List String)) (bookingRow : List String)
    (today : PyDate) : List (List String) :=
  let rows1 :=
    if rows.isEmpty then [standardHeaders]
    else if !(headerRowTest (rows.headD [])) then standardHeaders :: rows
    else rows
  let d := (parseDate (bookingRow.getD 3 "")).getD today
  let sec := findOrCreateMonthSection rows1 d
  let insertRow := findInsertionPointInMonthSection sec.1 sec.2 d
  wsInsertRowAt sec.1 insertRow bookingRow

/-! ### Booking creation (`create_booking`) -/

/-- The literal `room_type_map` lookup of `create_booking`
(google_sheets.py:442-450). -/
def roomTypeSearchTerm (roomType : String) : String :=
  if roomType = "Twin Room" then "twin"
  else if roomType = "Double Room" then "double"
  else if roomType = "Two Bed Room Villa" then "villa"
  else if roomType = "Twin" then "twin"
  else if roomType = "Double" then "double"
  else if roomType = "Villa" then "villa"
  else pyLower roomType

/-- Price recomputation when an alternate room is substituted
(google_sheets.py:463-477): strip `,`/`Nu.`, multiply by nights (min 1) and
room count.  The float arithmetic of the source is modelled on integers;
any parse failure keeps the old price. -/
def substitutePrice (newRoomPrice oldPrice checkIn checkOut : String)
    (numRooms : Nat) : String :=
  if newRoomPrice = "" then oldPrice
  else
    let cleaned := pyStrip (pyJoin "" (pySplit (pyJoin "" (pySplit newRoomPrice ",")) "Nu."))
    match parsePyNumber cleaned, parseDate checkIn, parseDate checkOut with
    | some ppn, some cid, some cod =>
      let nights := if dateDiffDays cid cod ≤ 0 then 1 else dateDiffDays cid cod
      intToStr (ppn * nights * numRooms)
    | _, _, _ => oldPrice

/-- `create_booking` (google_sheets.py:427-518): both availability paths are
consulted; an unavailable room is substituted by the first available room of
the same type or the call fails; the booking row is inserted into the
month-sectioned pending sheet and the generated booking ID returned. -/
def createBooking (s : SheetsState)
    (customerName phone checkIn checkOut roomType roomName roomId : String)
    (numRooms guests : Nat) (price status : String) : Option String × SheetsState :=
  let avail1 := (checkRoomAvailabilityByDate s roomId checkIn checkOut).1
  let avail2 := (checkRoomAvailabilityFromBookedDatesColumn s roomId checkIn checkOut).1
  let sub : Option (String × String × String) :=
    if avail1 && avail2 then some (roomId, roomName, price)
    else
      match getAvailableRoomsByType s (roomTypeSearchTerm roomType) checkIn checkOut with
      | [] => none
      | r :: _ => some (r.roomId, r.roomName, substitutePrice r.price price checkIn checkOut numRooms)
  match sub with
  | none => (none, s)
  | some rp =>
    let s1 := getOrCreatePendingSheet s
    let bookingId := "BK" ++ natToStr s.nowMs
    let bookingRow := [bookingId, customerName, phone, checkIn, checkOut, roomType,
      rp.2.1, rp.1, natToStr numRooms, natToStr guests, rp.2.2, status, s.nowStr, ""]
    let newRows := insertBookingSorted (sheetRows s1 pendingBookingsSheetName) bookingRow s.today
    let s2 := setSheetRows s1 pendingBookingsSheetName newRows
    (some bookingId, invalidateSheetCache s2 pendingBookingsSheetName)

/-- The per-sheet room-found test of the booked-dates-column check, used to
state "the room is present in a hotel sheet". -/
def sheetFindsRoom (roomId : String) (data : List (List String)) : Bool :=
  decide (2 ≤ data.length) &&
    (match detectRoomSheetCols (data.headD []) with
     | (some ric, _) =>
       ((data.drop 1).find? (fun row =>
         decide (ric < row.length) && (pyStrip (row.getD ric "") == pyStrip roomId))).isSome
     | (none, _) => false)

/-! ### Booking approval and rejection (`update_booking_status`) -/

/-- The booking-location loop of `update_booking_status`
(google_sheets.py:881-903): scan the pending rows (1-based `idx`), tracking
whether a month header has been passed, skipping blank rows, month headers
and header rows, and matching the first row whose Booking ID cell (stripped)
equals `bookingId`. -/
def findBookingRowGo (bookingId : String) : List (List String) → Nat → Bool →
    Option (Nat × List String)
  | [], _, _ => none
  | row :: rest, idx, inSection =>
    if !(row.any (fun c => !(c == ""))) then
      findBookingRowGo bookingId rest (idx + 1) inSection
    else if !(row.headD "" == "") && isMonthHeaderCell (row.headD "") then
      findBookingRowGo bookingId rest (idx + 1) true
    else if inSection && headerRowTest row then
      findBookingRowGo bookingId rest (idx + 1) inSection
    else if decide (0 < row.length) && (pyStrip (row.headD "") == bookingId) then
      some (idx, row)
    else findBookingRowGo bookingId rest (idx + 1) inSection

def findBookingRow (rows : List (List String)) (bookingId : String) :
    Option (Nat × List String) :=
  findBookingRowGo bookingId rows 1 false

/-- Archive insert-position loop of `update_booking_status`
(google_sheets.py:1002-1019): 1-based `idx` scans `monthly_data[1:]`, newest
check-in first; blank or unparsable check-in cells leave the position
unchanged. -/
def monthlyInsertRowGo (d : PyDate) : List (List String) → Nat → Nat → Nat
  | [], _, pos => pos
  | row :: rest, idx, pos =>
    if 3 < row.length then
      if pyStrip (row.getD 3 "") == "" then monthlyInsertRowGo d rest (idx + 1) pos
      else
        match parseDate (pyStrip (row.getD 3 "")) with
        | some rci =>
          if dateLe rci d then idx + 1
          else monthlyInsertRowGo d rest (idx + 1) (idx + 2)
        | none => monthlyInsertRowGo d rest (idx + 1) pos
    else monthlyInsertRowGo d rest (idx + 1) pos

def monthlyInsertRow (d : PyDate) (monthlyData : List (List String)) : Nat :=
  if 1 < monthlyData.length then monthlyInsertRowGo d (monthlyData.drop 1) 1 2 else 2

/-- `f"Bookings {month_name} {year}"` (google_sheets.py:1229). -/
def monthlySheetName (d : PyDate) : String :=
  "Bookings " ++ pyMonthName d.month ++ " " ++ natToStr d.year

/-- `_get_or_create_monthly_booking_sheet` (google_sheets.py:1222-1249):
created with the 14 archive headers when missing. -/
def getOrCreateMonthlySheet (s : SheetsState) (d : PyDate) : SheetsState :=
  match findSheet s (monthlySheetName d) with
  | some _ => s
  | none => addSheet s (monthlySheetName d) [monthlyHeaders]

/-- Shared driver of `update_room_booked_dates`,
`_decrement_room_availability_by_id` and `_make_room_available`: walk the
hotel-typed sheets, apply the per-sheet update to the first sheet that
accepts it, write it back, invalidate that sheet's cache entry and stop. -/
def updateFirstSheet (s : SheetsState) (L : List String)
    (upd : List (List String) → Option (List (List String))) : Bool × SheetsState :=
  match L with
  | [] => (false, s)
  | n :: rest =>
    match readAllData s n with
    | none => updateFirstSheet s rest upd
    | some rows =>
      match upd rows with
      | some rr => (true, invalidateSheetCache (setSheetRows s n rr) n)
      | none => updateFirstSheet s rest upd

/-- The new `Booked Dates` cell value (google_sheets.py:1544-1571):
parse, drop expired ranges, append-and-sort or remove the given range, and
re-render as `"a to b, c to d"`. -/
def bookedDatesCellValue (today : PyDate) (current : String) (cid cod : PyDate)
    (add : Bool) : String :=
  let ranges := cleanupExpiredBookedDates today (parseBookedDates current)
  let ranges2 :=
    if add then (ranges ++ [(cid, cod)]).mergeSort (fun a b => dateLe a.1 b.1)
    else ranges.filter (fun r => !(r.1 == cid && r.2 == cod))
  if ranges2.isEmpty then ""
  else pyJoin ", " (ranges2.map (fun r => fmtDate r.1 ++ " to " ++ fmtDate r.2))

/-- Per-sheet body of `update_room_booked_dates` (google_sheets.py:1498-1581):
find the room's row, add the `Booked Dates` column to the header row when it
is missing, and rewrite that cell; `none` means the room is not in this
sheet. -/
def updateBookedDatesInSheet (today : PyDate) (roomId : String) (cid cod : PyDate)
    (add : Bool) (rows : List (List String)) : Option (List (List String)) :=
  if rows.length < 2 then none
  else
    match detectRoomSheetCols (rows.headD []) with
    | (some ric, obdc) =>
      match findRowIdx1 (rows.drop 1) (fun row =>
          decide (ric < row.length) && (pyStrip (row.getD ric "") == pyStrip roomId)) with
      | some ridx1 =>
        let row := (rows.drop 1).getD (ridx1 - 1) []
        let rows1 :=
          match obdc with
          | some _ => rows
          | none => wsUpdateCellAt rows 1 ((rows.headD []).length + 1) "Booked Dates"
        let bdc :=
          match obdc with
          | some c => c
          | none => (rows.headD []).length
        let current := if bdc < row.length then pyStrip (row.getD bdc "") else ""
        some (wsUpdateCellAt rows1 (ridx1 + 1) (bdc + 1)
          (bookedDatesCellValue today current cid cod add))
      | none => none
    | (none, _) => none

/-- `update_room_booked_dates` (google_sheets.py:1478-1591). -/
def updateRoomBookedDates (s : SheetsState) (roomId checkIn checkOut : String)
    (add : Bool) : Bool × SheetsState :=
  match parseDate checkIn, parseDate checkOut with
  | some cid, some cod =>
    updateFirstSheet s (hotelTypedSheets s)
      (updateBookedDatesInSheet s.today roomId cid cod add)
  | _, _ => (false, s)

/-- Column detection shared by `_decrement_room_availability_by_id`
(google_sheets.py:1093-1098) and `_make_room_available`
(background_tasks.py:198-203): (room id, availability) indices. -/
def detectAvailabilityCols (headers : List String) : Option Nat × Option Nat :=
  headers.enum.foldl (fun acc p =>
    let h := pyLower p.2
    if strContains h "room id" || strContains h "room_id" then (some p.1, acc.2)
    else if strContains h "current available" || strContains h "available" then (acc.1, some p.1)
    else acc) (none, none)

/-- The cell rewrite of `_decrement_room_availability_by_id`
(google_sheets.py:1105-1119): a yes-flag becomes `No` (when at least one room
is booked); a numeric cell becomes `max(0, current - num_rooms)`; an empty
cell counts as `0`; anything else is left unwritten (`except: pass`). -/
def decrementAvailValue (currentAvail : String) (numRooms : Int) : Option String :=
  if ["yes", "available", "true"].contains (pyLower currentAvail) then
    if 1 ≤ numRooms then some "No" else none
  else
    match (if currentAvail == "" then some 0 else parsePyNumber currentAvail) with
    | some cur => some (intToStr (max 0 (cur - numRooms)))
    | none => none

/-- Per-sheet body shared by `_decrement_room_availability_by_id`
(google_sheets.py:1079-1126) and `_make_room_available`
(background_tasks.py:184-219): find the columns and the room's first row and
rewrite its availability cell with `f`; a row shorter than the availability
column raises and skips the sheet; a failing `f` still counts as processed. -/
def updateAvailCellInSheet (roomId : String) (f : String → Option String)
    (rows : List (List String)) : Option (List (List String)) :=
  if rows.length < 2 then none
  else
    match detectAvailabilityCols (rows.headD []) with
    | (some ric, some avc) =>
      match findRowIdx1 (rows.drop 1) (fun row =>
          decide (ric < row.length) && (pyStrip (row.getD ric "") == pyStrip roomId)) with
      | some ridx1 =>
        let row := (rows.drop 1).getD (ridx1 - 1) []
        if avc < row.length then
          match f (pyStrip (row.getD avc "")) with
          | some v => some (wsUpdateCellAt rows (ridx1 + 1) (avc + 1) v)
          | none => some rows
        else none
      | none => none
    | _ => none

/-- `_decrement_room_availability_by_id` (google_sheets.py:1072-1133). -/
def decrementRoomAvailabilityById (s : SheetsState) (roomId : String)
    (numRooms : Int) : Bool × SheetsState :=
  updateFirstSheet s (hotelTypedSheets s)
    (updateAvailCellInSheet roomId (fun cur => decrementAvailValue cur numRooms))

/-- `_make_room_available` (background_tasks.py:177-226): the availability
cell is set to `Yes` unconditionally. -/
def makeRoomAvailable (s : SheetsState) (roomId : String) : Bool × SheetsState :=
  updateFirstSheet s (hotelTypedSheets s)
    (updateAvailCellInSheet roomId (fun _ => some "Yes"))

/-- The monthly-archive row built on approval (google_sheets.py:936-980):
the first 11 pending columns (padded with blanks), then the normalized
status `confirmed`, the approval timestamp, and the notes. -/
def approvedMonthlyRow (bookingRow : List String) (nowStr notes : String) :
    List String :=
  (List.range 11).map (fun i => bookingRow.getD i "")
    ++ ["confirmed", nowStr, if notes == "" then "" else notes]

/-- Check-in date recovery on approval (google_sheets.py:911-928): ISO,
else `"%B %d, %Y"` (the first fallback format; the fallback loop breaks
after it), else the current date. -/
def approveCheckInDate (s1 : SheetsState) (bookingRow : List String) : PyDate :=
  if 3 < bookingRow.length then
    match parseDate (pyStrip (bookingRow.getD 3 "")) with
    | some d => d
    | none =>
      match parseLongDate (pyStrip (bookingRow.getD 3 "")) with
      | some d => d
      | none => s1.today
  else s1.today

def approveRoomId (bookingRow : List String) : String :=
  if 7 < bookingRow.length then pyStrip (bookingRow.getD 7 "") else ""

def approveCheckIn (bookingRow : List String) : String :=
  if 7 < bookingRow.length then
    (if 3 < bookingRow.length then pyStrip (bookingRow.getD 3 "") else "")
  else ""

def approveCheckOut (bookingRow : List String) : String :=
  if 7 < bookingRow.length then
    (if 4 < bookingRow.length then pyStrip (bookingRow.getD 4 "") else "")
  else ""

def approveNumRooms (bookingRow : List String) : Int :=
  if 8 < bookingRow.length then
    match parsePyNumber (pyStrip (bookingRow.getD 8 "")) with
    | some v => v
    | none => 1
  else 1

/-- The archive step of the approval branch (google_sheets.py:930-1022):
ensure the monthly sheet and its headers exist, then insert the archive row
sorted by check-in (newest first). -/
def archivePhase (s1 : SheetsState) (d : PyDate) (monthlyRow : List String)
    (today : PyDate) : SheetsState :=
  let mname := monthlySheetName d
  let s2 := getOrCreateMonthlySheet s1 d
  let monthlyData :=
    if (sheetRows s2 mname).length < 1 then [monthlyHeaders] else sheetRows s2 mname
  let s3 :=
    if (sheetRows s2 mname).length < 1 then setSheetRows s2 mname [monthlyHeaders]
    else s2
  let sortDate := (parseDate (monthlyRow.getD 3 "")).getD today
  setSheetRows s3 mname
    (wsInsertRowAt monthlyData (monthlyInsertRow sortDate monthlyData) monthlyRow)

/-- The approval branch of `update_booking_status`
(google_sheets.py:909-1053): archive the row into the monthly sheet (sorted
by check-in, headers ensured), delete the pending row, append the booked
range to the room's booked-dates column, decrement the room's availability,
and invalidate the pending sheet's cache. -/
def approveBookingState (s1 : SheetsState) (nowStr : String) (rowIdx : Nat)
    (bookingRow : List String) (notes : String) : SheetsState :=
  let checkInDate := approveCheckInDate s1 bookingRow
  let s4 := archivePhase s1 checkInDate (approvedMonthlyRow bookingRow nowStr notes) s1.today
  let s5 := setSheetRows s4 pendingBookingsSheetName
    (wsDeleteRowAt (sheetRows s4 pendingBookingsSheetName) rowIdx)
  let s6 :=
    if approveRoomId bookingRow ≠ "" ∧ approveCheckIn bookingRow ≠ ""
        ∧ approveCheckOut bookingRow ≠ "" then
      (updateRoomBookedDates s5 (approveRoomId bookingRow) (approveCheckIn bookingRow)
        (approveCheckOut bookingRow) true).2
    else s5
  let s7 :=
    if approveRoomId bookingRow ≠ "" then
      (decrementRoomAvailabilityById s6 (approveRoomId bookingRow)
        (approveNumRooms bookingRow)).2
    else s6
  invalidateSheetCache s7 pendingBookingsSheetName

/-- The rejection branch of `update_booking_status`
(google_sheets.py:1055-1063): rewrite the Status cell and, when notes are
given, the Notes cell of the pending row, and invalidate the cache entry. -/
def rejectBookingState (s1 : SheetsState) (rowIdx : Nat) (status notes : String) :
    SheetsState :=
  let data := sheetRows s1 pendingBookingsSheetName
  let rows1 := wsUpdateCellAt data rowIdx 12 status
  let rows2 := if notes ≠ "" then wsUpdateCellAt rows1 rowIdx 14 notes else rows1
  invalidateSheetCache (setSheetRows s1 pendingBookingsSheetName rows2)
    pendingBookingsSheetName

/-- `update_booking_status` (google_sheets.py:856-1070).  The `sheet_name`
parameter of the source is unused (the pending sheet is always consulted).
Approval moves the row to the monthly archive, updates the room's booked
dates, and decrements its availability; any other status only rewrites the
Status (and, when given, Notes) cells in place. -/
def updateBookingStatus (s : SheetsState) (bookingId status notes : String) :
    Bool × SheetsState :=
  let s1 := getOrCreatePendingSheet s
  let data := sheetRows s1 pendingBookingsSheetName
  if data.length < 2 then (false, s1)
  else
    match findBookingRow data bookingId with
    | none => (false, s1)
    | some ir =>
      if ["approved", "confirmed"].contains (pyLower status) then
        (true, approveBookingState s1 s.nowStr ir.1 ir.2 notes)
      else
        (true, rejectBookingState s1 ir.1 status notes)

/-! ### The agent's booking tool (duplicate detection) -/

/-- Column detection of the duplicate-booking scan
(langchain_agent.py:613-623): (phone, room type, check-in, status). -/
def detectDupCols (headers : List String) :
    Option Nat × Option Nat × Option Nat × Option Nat :=
  headers.enum.foldl (fun acc p =>
    let h := pyLower p.2
    if strContains h "phone" then (some p.1, acc.2.1, acc.2.2.1, acc.2.2.2)
    else if strContains h "room_type" || strContains h "room type" then
      (acc.1, some p.1, acc.2.2.1, acc.2.2.2)
    else if strContains h "check-in" || strContains h "check_in" then
      (acc.1, acc.2.1, some p.1, acc.2.2.2)
    else if strContains h "status" then (acc.1, acc.2.1, acc.2.2.1, some p.1)
    else acc) (none, none, none, none)

/-- Per-row duplicate test of the agent's `create_booking` tool
(langchain_agent.py:626-640): same phone (stripped), same room type
(case-insensitively), same check-in, and still `pending` (a missing status
cell counts as pending); yields the row's Booking ID. -/
def dupRowStatus (stIdx : Option Nat) (row : List String) : String :=
  match stIdx with
  | some i => if i < row.length then pyLower (pyStrip (row.getD i "")) else "pending"
  | none => "pending"

def dupRowMatch (pIdx rtIdx ciIdx : Nat) (stIdx : Option Nat)
    (phone roomType checkIn : String) (row : List String) : Option String :=
  if decide (max pIdx (max rtIdx ciIdx) < row.length) then
    if (pyStrip (row.getD pIdx "") == pyStrip phone)
        && (pyLower (pyStrip (row.getD rtIdx "")) == pyLower roomType)
        && (pyStrip (row.getD ciIdx "") == checkIn)
        && (dupRowStatus stIdx row == "pending") then
      some (row.headD "N/A")
    else none
  else none

/-- Duplicate-booking scan of the agent's `create_booking` tool
(langchain_agent.py:602-643): the first matching pending row
short-circuits, returning its Booking ID. -/
def findDuplicateBooking (bookingsData : List (List String))
    (phone roomType checkIn : String) : Option String :=
  if bookingsData.length ≤ 1 then none
  else
    match detectDupCols (bookingsData.headD []) with
    | (some pIdx, some rtIdx, some ciIdx, stIdx) =>
      (bookingsData.drop 1).findSome? (dupRowMatch pIdx rtIdx ciIdx stIdx phone roomType checkIn)
    | _ => none

/-- First room-id column (`get_room_info` breaks at the first match,
google_sheets.py:830-835). -/
def firstRoomIdCol (headers : List String) : Option Nat :=
  (headers.enum.find? (fun p =>
    strContains (pyLower p.2) "room id" || strContains (pyLower p.2) "room_id")).map Prod.fst

/-- `get_room_info` (google_sheets.py:815-854): the row of the first hotel
sheet holding the room, zipped with that sheet's headers
(`dict(zip(headers, row))`). -/
def getRoomInfo (s : SheetsState) (roomId : String) :
    Option (List (String × String)) :=
  (hotelTypedSheets s).findSome? (fun n =>
    match readAllData s n with
    | none => none
    | some data =>
      if data.length < 2 then none
      else
        match firstRoomIdCol (data.headD []) with
        | none => none
        | some ric =>
          ((data.drop 1).find? (fun row =>
            decide (ric < row.length) && (pyStrip (row.getD ric "") == pyStrip roomId))).map
            (fun row => (data.headD []).zip row))

/-- Python `dict` lookup on `dict(zip(headers, row))`: a duplicate key keeps
its last value. -/
def pyDictGet (d : List (String × String)) (k : String) : Option String :=
  (d.reverse.find? (fun p => p.1 == k)).map Prod.snd

/-- Guest-capacity recovery (langchain_agent.py:679-687): the first capacity
key whose value parses as `int(float(...))`. -/
def maxGuestsFrom (info : List (String × String)) : Option Int :=
  ["Max Guest", "max_guest", "Max Guests", "max_guests", "Capacity", "capacity"].findSome?
    (fun k =>
      match pyDictGet info k with
      | some v => parsePyNumber (pyStrip v)
      | none => none)

/-- The booking-creation tool of the universal agent
(langchain_agent.py:599-745), from the point where the room fields have been
resolved (the preceding vector-search room resolution is an excluded
external collaborator, and the numeric tool arguments arrive parsed):
read the pending sheet, short-circuit on a duplicate, pre-check the chosen
room's date availability, validate the dates, enforce the room's guest
capacity, then delegate to `create_booking` and report. -/
def agentCreateBookingTool (s : SheetsState)
    (customerName phone checkIn checkOut roomType roomName roomId : String)
    (numRooms guests : Nat) (price : String) : SheetsState × String :=
  let s1 := getOrCreatePendingSheet s
  let pendingData := sheetRows s1 pendingBookingsSheetName
  match findDuplicateBooking pendingData phone roomType checkIn with
  | some dupId =>
    (s1, "✅ You already have a pending booking for " ++ roomType ++ " on " ++ checkIn
      ++ "! Booking ID: " ++ dupId
      ++ "\nOur team will contact you at " ++ phone ++ " for confirmation.")
  | none =>
    if roomId ≠ "" ∧ (checkRoomAvailabilityByDate s1 roomId checkIn checkOut).1 = false then
      (s1, "❌ " ++ (checkRoomAvailabilityByDate s1 roomId checkIn checkOut).2
        ++ "\n\nPlease choose different dates or another room.")
    else
      match parseDate checkIn, parseDate checkOut with
      | some cid, some cod =>
        if dateLe cod cid then
          (s1, "❌ Check-in date must be before check-out date. Please correct your dates.")
        else if dateLt cid s1.today then
          (s1, "❌ Check-in date cannot be in the past. Please choose a future date.")
        else if dateDiffDays cid cod ≤ 0 then
          (s1, "❌ Invalid date range. Please ensure check-out is after check-in.")
        else
          let capacityErr : Option String :=
            if roomId ≠ "" then
              match getRoomInfo s1 roomId with
              | some info =>
                match maxGuestsFrom info with
                | some mg =>
                  if mg ≠ 0 ∧ (guests : Int) > mg then
                    some ("❌ This room can accommodate a maximum of " ++ intToStr mg
                      ++ " guests, but you requested " ++ natToStr guests
                      ++ " guests. Please reduce the number of guests or book additional rooms.")
                  else none
                | none => none
              | none => none
            else none
          match capacityErr with
          | some msg => (s1, msg)
          | none =>
            let res := createBooking s1 customerName phone checkIn checkOut roomType
              (if roomName == "" then roomType else roomName) roomId numRooms guests
              price "pending"
            match res.1 with
            | some bid =>
              (res.2, "✅ Booking confirmed! \n\n🆔 Booking ID: " ++ bid
                ++ "\n🛏️ Room: " ++ roomType ++ "\n📅 Check-in: " ++ checkIn
                ++ "\n📅 Check-out: " ++ checkOut ++ "\n💰 Total Price: Nu." ++ price
                ++ "\n\nOur team will contact you at " ++ phone
                ++ " for confirmation and payment. Thank you for choosing us! 😊")
            | none =>
              if roomType ≠ "" then
                match getAvailableRoomsByType res.2 (roomTypeSearchTerm roomType)
                    checkIn checkOut with
                | [] =>
                  (res.2, "❌ Sorry, no " ++ roomType ++ " rooms are available for the dates "
                    ++ checkIn ++ " to " ++ checkOut
                    ++ ". Please try different dates or another room type.")
                | rooms =>
                  (res.2, "❌ The specific room you selected is not available for these dates. However, we have other "
                    ++ roomType ++ " rooms available (IDs: "
                    ++ pyJoin ", " ((rooms.take 3).map AvailableRoom.roomId)
                    ++ "). Would you like me to book one of these instead? Just say \x27yes\x27 and I\x27ll select an available room for you! 😊")
              else
                (res.2, "❌ Sorry, I couldn\x27t create your booking. Please try again or contact us directly.")
      | _, _ =>
        (s1, "❌ Invalid date format. Please provide dates in YYYY-MM-DD format.")

/-! ### Auto-checkout sweep (`background_tasks.py`) -/

/-- Python `s.startswith(pre)`. -/
def pyStartsWith (s pre : String) : Bool := pre.data.isPrefixOf s.data

/-- The monthly-archive filter of `_process_auto_checkout`
(background_tasks.py:78-81). -/
def monthlyArchiveSheets (s : SheetsState) : List String :=
  (discoverSheets s).filter (fun n =>
    pyStartsWith (pyLower n) "bookings " && !(pyLower n == "pending bookings"))

/-- Column detection of `_process_auto_checkout`
(background_tasks.py:100-109): (check-out, room id, status); the detected
room-name column is never used. -/
def detectCheckoutCols (headers : List String) :
    Option Nat × Option Nat × Option Nat :=
  headers.enum.foldl (fun acc p =>
    let h := pyLower p.2
    if strContains h "check-out" || strContains h "check_out" then
      (some p.1, acc.2.1, acc.2.2)
    else if strContains h "room id" || strContains h "room_id" then
      (acc.1, some p.1, acc.2.2)
    else if strContains h "status" then (acc.1, acc.2.1, some p.1)
    else acc) (none, none, none)

/-- Checkout-date parse of `_process_auto_checkout`
(background_tasks.py:130-145): ISO, else the fallback `"%B %d, %Y"` (the
fallback loop breaks after its first format; a failure skips the row). -/
def parseCheckoutDate (s : String) : Option PyDate :=
  match parseDate s with
  | some d => some d
  | none => parseLongDate s

/-- Row status of the auto-checkout sweep (background_tasks.py:121):
empty when the status column is missing or the row is short. -/
def checkoutRowStatus (stIdx : Option Nat) (row : List String) : String :=
  match stIdx with
  | some i => if i < row.length then pyLower (pyStrip (row.getD i "")) else ""
  | none => ""

/-- Row qualification of the auto-checkout sweep
(background_tasks.py:115-161): an approved/confirmed booking row whose
parsable checkout date has passed, or is today once the hour reaches 11. -/
def checkoutQualifies (today : PyDate) (hour : Nat) (coIdx ridIdx : Nat)
    (stIdx : Option Nat) (row : List String) : Bool :=
  if row.length ≤ max coIdx ridIdx then false
  else
    if !(["approved", "confirmed"].contains (checkoutRowStatus stIdx row)) then false
    else if (pyStrip (row.getD coIdx "") == "") || (pyStrip (row.getD ridIdx "") == "") then
      false
    else
      match parseCheckoutDate (pyStrip (row.getD coIdx "")) with
      | none => false
      | some cod =>
        if dateLt cod today then true
        else if (cod == today) && decide (11 ≤ hour) then true
        else false

/-- Per-sheet row loop of `_process_auto_checkout`
(background_tasks.py:115-161): each qualifying row triggers
`_make_room_available` for its room. -/
def sweepSheetRows (today : PyDate) (hour : Nat) (coIdx ridIdx : Nat)
    (stIdx : Option Nat) : List (List String) → SheetsState → SheetsState
  | [], st => st
  | row :: rest, st =>
    if checkoutQualifies today hour coIdx ridIdx stIdx row then
      sweepSheetRows today hour coIdx ridIdx stIdx rest
        (makeRoomAvailable st (pyStrip (row.getD ridIdx ""))).2
    else sweepSheetRows today hour coIdx ridIdx stIdx rest st

/-- Sheet loop of `_process_auto_checkout` (background_tasks.py:86-165). -/
def sweepSheets (today : PyDate) (hour : Nat) : List String → SheetsState → SheetsState
  | [], st => st
  | n :: rest, st =>
    match readAllData st n with
    | none => sweepSheets today hour rest st
    | some data =>
      if data.length < 2 then sweepSheets today hour rest st
      else
        match detectCheckoutCols (data.headD []) with
        | (some coIdx, some ridIdx, stIdx) =>
          sweepSheets today hour rest
            (sweepSheetRows today hour coIdx ridIdx stIdx (data.drop 1) st)
        | _ => sweepSheets today hour rest st

/-- One pass of `_process_auto_checkout` (background_tasks.py:60-175), after
the hourly throttle has fired. -/
def processAutoCheckout (s : SheetsState) : SheetsState :=
  sweepSheets s.today s.hour (monthlyArchiveSheets s) s

/-- The room ids of one sheet's qualifying rows, in row order. -/
def sheetCheckoutIds (today : PyDate) (hour : Nat) (st : SheetsState)
    (n : String) : List String :=
  match readAllData st n with
  | none => []
  | some data =>
    if data.length < 2 then []
    else
      match detectCheckoutCols (data.headD []) with
      | (some coIdx, some ridIdx, stIdx) =>
        (data.drop 1).filterMap (fun row =>
          if checkoutQualifies today hour coIdx ridIdx stIdx row then
            some (pyStrip (row.getD ridIdx ""))
          else none)
      | _ => []

/-- The rooms the sweep releases, computed on the initial state: for every
monthly archive sheet, the room ids of its qualifying rows in order. -/
def checkoutRoomIds (s : SheetsState) : List String :=
  (monthlyArchiveSheets s).flatMap (sheetCheckoutIds s.today s.hour s)

/-- Releasing a list of rooms in order, one `_make_room_available` each. -/
def applyCheckouts (st : SheetsState) (rids : List String) : SheetsState :=
  rids.foldl (fun a r => (makeRoomAvailable a r).2) st

/-- Concrete state for the C3 witness: one hotel sheet holding room `R1`
with an empty booked-dates cell and no booking sheets. -/
def c3WitState : SheetsState :=
  ⟨[⟨"Rooms", [["Room ID", "Booked Dates"], ["R1", ""]]⟩], [], ⟨2026, 1, 1⟩, 0, "T0", 123⟩

/-- Concrete state for the C9 witness: one archive sheet holding an approved
booking for room `R1` whose checkout has passed, and one hotel sheet holding
`R1` marked unavailable. -/
def c9WitState : SheetsState :=
  ⟨[⟨"Bookings January 2026",
      [["Booking ID", "Check-out", "Room ID", "Status"],
       ["BK1", "2026-01-05", "R1", "approved"]]⟩,
    ⟨"Rooms", [["Room ID", "Available"], ["R1", "No"]]⟩],
   ["Rooms"], ⟨2026, 2, 1⟩, 12, "T0", 123⟩

/-! ### Basic facts about the date order -/

theorem dateLt_irrefl (a : PyDate) : dateLt a a = false := by
  simp [dateLt]

theorem dateLt_asymm {a b : PyDate} (h : dateLt a b = true) : dateLt b a = false := by
  simp only [dateLt, decide_eq_true_eq] at h
  simp only [dateLt, decide_eq_false_iff_not]
  omega

/-- C1: the overlap test used by both availability paths returns true iff
`A.start < B.end` and `A.end > B.start`; it is symmetric in its two ranges;
and an adjacent pair with `A.end = B.start` is never flagged as overlapping. -/
theorem claim1_datesOverlap_spec (A B : PyDate × PyDate)
    (_hA : dateLt A.1 A.2 = true) (_hB : dateLt B.1 B.2 = true) :
    (datesOverlap A.1 A.2 B.1 B.2 = true ↔
      (dateLt A.1 B.2 = true ∧ dateLt B.1 A.2 = true))
    ∧ datesOverlap A.1 A.2 B.1 B.2 = datesOverlap B.1 B.2 A.1 A.2
    ∧ (A.2 = B.1 → datesOverlap A.1 A.2 B.1 B.2 = false) := by
  refine ⟨by simp [datesOverlap], ?_, ?_⟩
  · simp [datesOverlap, Bool.and_comm]
  · intro h
    simp only [datesOverlap, h, dateLt_irrefl, Bool.and_false]

/-- Witness for C1 at concrete adjacent ranges
(2026-01-10 → 2026-01-12) and (2026-01-12 → 2026-01-14). -/
theorem claim1_witness :
    datesOverlap ⟨2026, 1, 10⟩ ⟨2026, 1, 12⟩ ⟨2026, 1, 12⟩ ⟨2026, 1, 14⟩ = false :=
  (claim1_datesOverlap_spec (⟨2026, 1, 10⟩, ⟨2026, 1, 12⟩) (⟨2026, 1, 12⟩, ⟨2026, 1, 14⟩)
    (by decide) (by decide)).2.2 rfl

/-- C6: parsing the documented `Booked Dates` example string yields exactly its
two ranges, and the expired-range cleanup keeps exactly the ranges whose end
date is today or later. -/
theorem claim6_parse_cleanup :
    parseBookedDates "2026-01-25 to 2026-01-27, 2026-02-03 to 2026-02-05" =
      [(⟨2026, 1, 25⟩, ⟨2026, 1, 27⟩), (⟨2026, 2, 3⟩, ⟨2026, 2, 5⟩)]
    ∧ ∀ (today : PyDate) (l : List (PyDate × PyDate)) (r : PyDate × PyDate),
        r ∈ cleanupExpiredBookedDates today l ↔ (r ∈ l ∧ dateLe today r.2 = true) := by
  constructor
  · decide
  · intro today l r
    simp [cleanupExpiredBookedDates, List.mem_filter]

/-! ### List helper lemmas -/

theorem findSome?_middle_none {α β : Type} (f : α → Option β) (x : α) (hx : f x = none)
    (l1 l2 : List α) :
    (l1 ++ x :: l2).findSome? f = (l1 ++ l2).findSome? f := by
  induction l1 with
  | nil => simp [List.findSome?_cons, hx]
  | cons a t ih =>
    simp only [List.cons_append, List.findSome?_cons]
    cases f a <;> simp [ih]

theorem filterMap_middle_none {α β : Type} (f : α → Option β) (x : α) (hx : f x = none)
    (l1 l2 : List α) :
    (l1 ++ x :: l2).filterMap f = (l1 ++ l2).filterMap f := by
  simp [List.filterMap_append, List.filterMap_cons, hx]

/-- C5: a requested range violating the date invariant (unparsable strings,
check-in ≥ check-out, or check-in before today) makes both availability checks
return unavailable with a message, without consulting any sheet data (the
result is the same in any two states with the same clock, and in particular
does not depend on the sheets). -/
theorem claim5_invalid_dates_rejected (s t : SheetsState) (roomId checkIn checkOut : String)
    (hToday : s.today = t.today)
    (hBad : parseDate checkIn = none ∨ parseDate checkOut = none
      ∨ (∃ cid cod, parseDate checkIn = some cid ∧ parseDate checkOut = some cod ∧
          (dateLe cod cid = true ∨ dateLt cid s.today = true))) :
    (checkRoomAvailabilityByDate s roomId checkIn checkOut).1 = false
    ∧ (checkRoomAvailabilityFromBookedDatesColumn s roomId checkIn checkOut).1 = false
    ∧ (checkRoomAvailabilityByDate s roomId checkIn checkOut).2 ≠ ""
    ∧ (checkRoomAvailabilityFromBookedDatesColumn s roomId checkIn checkOut).2 ≠ ""
    ∧ checkRoomAvailabilityByDate s roomId checkIn checkOut
        = checkRoomAvailabilityByDate t roomId checkIn checkOut
    ∧ checkRoomAvailabilityFromBookedDatesColumn s roomId checkIn checkOut
        = checkRoomAvailabilityFromBookedDatesColumn t roomId checkIn checkOut := by
  rcases hBad with h | h | ⟨cid, cod, hci, hco, hord⟩
  · simp [checkRoomAvailabilityByDate, checkRoomAvailabilityFromBookedDatesColumn, h]
  · cases hci : parseDate checkIn <;>
      simp [checkRoomAvailabilityByDate, checkRoomAvailabilityFromBookedDatesColumn, h, hci]
  · rcases hord with hord | hord
    · simp [checkRoomAvailabilityByDate, checkRoomAvailabilityFromBookedDatesColumn,
        hci, hco, hord]
    · by_cases hle : dateLe cod cid = true
      · simp [checkRoomAvailabilityByDate, checkRoomAvailabilityFromBookedDatesColumn,
          hci, hco, hle]
      · rw [hToday] at hord
        simp [checkRoomAvailabilityByDate, checkRoomAvailabilityFromBookedDatesColumn,
          hci, hco, hle, hord, hToday]

/-- Witness for C5: an unparsable check-in string is rejected by both checks. -/
theorem claim5_witness :
    (checkRoomAvailabilityByDate ⟨[], [], ⟨2026, 1, 1⟩, 0, "", 0⟩ "R1" "not-a-date" "2026-01-05").1
      = false
    ∧ (checkRoomAvailabilityFromBookedDatesColumn ⟨[], [], ⟨2026, 1, 1⟩, 0, "", 0⟩
        "R1" "not-a-date" "2026-01-05").1 = false :=
  ⟨(claim5_invalid_dates_rejected ⟨[], [], ⟨2026, 1, 1⟩, 0, "", 0⟩
      ⟨[], [], ⟨2026, 1, 1⟩, 0, "", 0⟩ "R1" "not-a-date" "2026-01-05" rfl
      (Or.inl (by decide))).1,
   (claim5_invalid_dates_rejected ⟨[], [], ⟨2026, 1, 1⟩, 0, "", 0⟩
      ⟨[], [], ⟨2026, 1, 1⟩, 0, "", 0⟩ "R1" "not-a-date" "2026-01-05" rfl
      (Or.inl (by decide))).2.1⟩

/-- C8: a stored row or booked-dates entry whose dates cannot be parsed is
skipped by the availability checks and imposes no constraint: the row-scan
conflict test returns nothing for such a row and deleting the row from a
booking sheet does not change the scan result, and an unparsable booked-dates
entry contributes nothing to the parsed ranges. -/
theorem claim8_unparsable_skipped
    (ric cic coc : Nat) (sc : Option Nat) (roomId : String) (ci co : PyDate)
    (row : List String) (name : String) (headers : List String)
    (hcols : detectBookingCols headers = (some ric, some cic, some coc, sc))
    (hrow : parseDate (pyStrip (row.getD cic "")) = none
      ∨ parseDate (pyStrip (row.getD coc "")) = none)
    (l1 l2 : List (List String))
    (entry : String) (hentry : parseBookedEntry entry = none)
    (es1 es2 : List String) :
    bookingRowConflict (strContains (pyLower name) "pending") ric cic coc sc
        roomId ci co row = none
    ∧ sheetConflict roomId ci co name (headers :: (l1 ++ row :: l2))
        = sheetConflict roomId ci co name (headers :: (l1 ++ l2))
    ∧ (es1 ++ entry :: es2).filterMap parseBookedEntry
        = (es1 ++ es2).filterMap parseBookedEntry := by
  have hnone : bookingRowConflict (strContains (pyLower name) "pending") ric cic coc sc
      roomId ci co row = none := by
    unfold bookingRowConflict
    split
    · rfl
    split
    · rfl
    split
    · rfl
    split
    · rfl
    rcases hrow with h | h <;>
      rcases hci : parseDate (pyStrip (row.getD cic "")) with _ | bci <;>
      rcases hco : parseDate (pyStrip (row.getD coc "")) with _ | bco <;>
      simp_all
  refine ⟨hnone, ?_, filterMap_middle_none _ _ hentry _ _⟩
  unfold sheetConflict
  rcases hl : l1 ++ l2 with _ | ⟨a, rest⟩
  · have h1 : l1 = [] := by
      cases l1 <;> simp_all
    have h2 : l2 = [] := by
      cases l1 <;> simp_all
    subst h1; subst h2
    simp only [List.nil_append, List.headD_cons]
    rw [hcols]
    simp [List.findSome?_cons, hnone]
  · rw [← hl]
    have hlen : ¬ (headers :: (l1 ++ row :: l2)).length < 2 := by
      simp
      omega
    have hlen2 : ¬ (headers :: (l1 ++ l2)).length < 2 := by
      rw [hl]
      simp
    rw [if_neg hlen, if_neg hlen2]
    simp only [List.headD_cons]
    rw [hcols]
    simp only [List.drop_succ_cons, List.drop_zero]
    exact findSome?_middle_none _ _ hnone l1 l2

/-- Witness for C8: a row with an unparsable check-out date and a garbage
booked-dates entry are both skipped. -/
theorem claim8_witness :
    bookingRowConflict (strContains (pyLower "Bookings January 2026") "pending") 0 1 2 none
        "R1" ⟨2026, 1, 10⟩ ⟨2026, 1, 12⟩ ["R1", "2026-01-10", "garbage"] = none
    ∧ sheetConflict "R1" ⟨2026, 1, 10⟩ ⟨2026, 1, 12⟩ "Bookings January 2026"
        (["Room ID", "Check-in", "Check-out"] :: ([] ++ ["R1", "2026-01-10", "garbage"] :: []))
        = sheetConflict "R1" ⟨2026, 1, 10⟩ ⟨2026, 1, 12⟩ "Bookings January 2026"
            (["Room ID", "Check-in", "Check-out"] :: ([] ++ []))
    ∧ ([["junk"].getD 0 ""] ++ "junk entry" :: []).filterMap parseBookedEntry
        = (["junk"] ++ []).filterMap parseBookedEntry := by
  have h := claim8_unparsable_skipped 0 1 2 none "R1" ⟨2026, 1, 10⟩ ⟨2026, 1, 12⟩
    ["R1", "2026-01-10", "garbage"] "Bookings January 2026"
    ["Room ID", "Check-in", "Check-out"] (by decide) (Or.inr (by decide)) [] []
    "junk entry" (by decide) ["junk"] []
  exact ⟨h.1, h.2.1, h.2.2⟩

/-! ### Order lemmas for dates -/

theorem dateLe_false_of_lt {a b : PyDate} (h : dateLt a b = true) : dateLe b a = false := by
  rcases a with ⟨y1, m1, d1⟩
  rcases b with ⟨y2, m2, d2⟩
  simp only [dateLt, decide_eq_true_eq] at h
  simp only [dateLe, dateLt, Bool.or_eq_false_iff, decide_eq_false_iff_not, PyDate.mk.injEq,
    not_and, not_or]
  omega

theorem dateLt_false_of_le {a b : PyDate} (h : dateLe a b = true) : dateLt b a = false := by
  rcases a with ⟨y1, m1, d1⟩
  rcases b with ⟨y2, m2, d2⟩
  simp only [dateLe, dateLt, Bool.or_eq_true, decide_eq_true_eq, PyDate.mk.injEq] at h
  simp only [dateLt, decide_eq_false_iff_not, not_or]
  omega

/-! ### Sheet-state lemmas -/

theorem readAllData_eq_of_mem (s : SheetsState) (name : String)
    (h : name ∈ discoverSheets s) :
    readAllData s name = some (sheetRows s name) := by
  simp only [discoverSheets, List.mem_map] at h
  obtain ⟨sh, hmem, hname⟩ := h
  have hsome : (findSheet s name).isSome := by
    rw [findSheet, List.find?_isSome]
    exact ⟨sh, hmem, by simp [hname]⟩
  rcases hfs : findSheet s name with _ | sh'
  · rw [hfs] at hsome
    simp at hsome
  · simp [readAllData, sheetRows, hfs]

theorem sheetRows_invalidateSheetCache (s : SheetsState) (n m : String) :
    sheetRows (invalidateSheetCache s n) m = sheetRows s m := rfl

theorem sheetRows_setSheetRows (s : SheetsState) (name : String)
    (rows : List (List String)) (h : (findSheet s name).isSome) :
    sheetRows (setSheetRows s name rows) name = rows := by
  rcases s with ⟨sheets, cache, today, hour, nowStr, nowMs⟩
  simp only [findSheet] at h
  simp only [sheetRows, findSheet, setSheetRows]
  induction sheets with
  | nil => simp at h
  | cons sh t ih =>
    rcases hn : (sh.name == name) with _ | _
    · rw [List.find?_cons_of_neg _ (by simp [hn])] at h
      simp only [List.map_cons, hn, Bool.false_eq_true, if_false, ite_false]
      rw [List.find?_cons_of_neg _ (by simp [hn])]
      exact ih h
    · simp only [List.map_cons, hn, if_true, ite_true]
      rw [List.find?_cons_of_pos _ (by simpa using hn)]
      simp

theorem findSheet_getOrCreatePending (s : SheetsState) :
    (findSheet (getOrCreatePendingSheet s) pendingBookingsSheetName).isSome := by
  unfold getOrCreatePendingSheet
  rcases h : findSheet s pendingBookingsSheetName with _ | sh
  · rcases s with ⟨sheets, cache, today, hour, nowStr, nowMs⟩
    simp only [findSheet, addSheet]
    rw [List.find?_append]
    simp only [findSheet] at h
    rw [h]
    simp
  · simp [h]

theorem wsInsertRowAt_mem (rows : List (List String)) (i : Nat) (r : List String) :
    r ∈ wsInsertRowAt rows i r := by
  simp [wsInsertRowAt]

theorem insertBookingSorted_mem (rows : List (List String)) (bookingRow : List String)
    (today : PyDate) : bookingRow ∈ insertBookingSorted rows bookingRow today := by
  unfold insertBookingSorted
  exact wsInsertRowAt_mem _ _ _

/-! ### Availability-check lemmas -/

theorem bookingRowConflict_of_room_ne (p : Bool) (ric cic coc : Nat) (sc : Option Nat)
    (roomId : String) (ci co : PyDate) (row : List String)
    (h : pyStrip (row.getD ric "") ≠ pyStrip roomId) :
    bookingRowConflict p ric cic coc sc roomId ci co row = none := by
  unfold bookingRowConflict
  by_cases h1 : row.length ≤ max ric (max cic coc)
  · rw [if_pos h1]
  · rw [if_neg h1]
    by_cases h2 : row.getD ric "" = "" ∨ pyStrip (row.getD ric "") = ""
    · rw [if_pos h2]
    · rw [if_neg h2, if_pos h]

theorem sheetConflict_none_of_no_room (roomId : String) (ci co : PyDate)
    (name : String) (data : List (List String))
    (h : ∀ ric cic coc stc,
        detectBookingCols (data.headD []) = (some ric, some cic, some coc, stc) →
        ∀ row ∈ data.drop 1, pyStrip (row.getD ric "") ≠ pyStrip roomId) :
    sheetConflict roomId ci co name data = none := by
  unfold sheetConflict
  split
  · rfl
  split
  · rename_i ric cic coc stc heq
    rw [List.findSome?_eq_none_iff]
    intro row hrow
    exact bookingRowConflict_of_room_ne _ _ _ _ _ _ _ _ _ (h ric cic coc stc heq row hrow)
  · rfl

theorem checkByDate_available (s : SheetsState) (roomId checkIn checkOut : String)
    (cid cod : PyDate) (hci : parseDate checkIn = some cid) (hco : parseDate checkOut = some cod)
    (hlt : dateLt cid cod = true) (hfut : dateLe s.today cid = true)
    (hNoBooking : ∀ n ∈ bookingNamedSheets s, ∀ ric cic coc stc,
        detectBookingCols ((sheetRows s n).headD []) = (some ric, some cic, some coc, stc) →
        ∀ row ∈ (sheetRows s n).drop 1, pyStrip (row.getD ric "") ≠ pyStrip roomId) :
    checkRoomAvailabilityByDate s roomId checkIn checkOut
      = (true, "Room is available for these dates.") := by
  have hnone : (bookingNamedSheets s).findSome? (fun n =>
      match readAllData s n with
      | none => none
      | some data => sheetConflict roomId cid cod n data) = none := by
    rw [List.findSome?_eq_none_iff]
    intro n hn
    have hmem : n ∈ discoverSheets s := List.mem_of_mem_filter hn
    rw [readAllData_eq_of_mem s n hmem]
    exact sheetConflict_none_of_no_room _ _ _ _ _ (hNoBooking n hn)
  unfold checkRoomAvailabilityByDate
  rw [hci, hco]
  simp only [dateLe_false_of_lt hlt, dateLt_false_of_le hfut, hnone, Bool.false_eq_true,
    if_false, ite_false]

theorem columnScan_available (s : SheetsState) (roomId : String) (cid cod : PyDate)
    (L : List String)
    (hsub : ∀ n ∈ L, n ∈ discoverSheets s)
    (hno : ∀ n ∈ L, ∀ ric bdc,
        detectRoomSheetCols ((sheetRows s n).headD []) = (some ric, bdc) →
        ∀ row ∈ (sheetRows s n).drop 1, pyStrip (row.getD ric "") = pyStrip roomId →
        roomRowOutcome s.today bdc cid cod row = none)
    (hfound : L.any (fun n => sheetFindsRoom roomId (sheetRows s n)) = true) :
    L.findSome? (fun n =>
      match readAllData s n with
      | none => none
      | some data => sheetRoomScan s.today roomId cid cod data) = some none := by
  induction L with
  | nil => simp at hfound
  | cons n rest ih =>
    have hread : readAllData s n = some (sheetRows s n) :=
      readAllData_eq_of_mem s n (hsub n (List.mem_cons_self n rest))
    rw [List.findSome?_cons, hread]
    rcases hcols : detectRoomSheetCols ((sheetRows s n).headD []) with ⟨orc, bdc⟩
    rcases hfind : sheetFindsRoom roomId (sheetRows s n) with _ | _
    · -- room not found in this sheet: the scan yields nothing, recurse
      have hscan : sheetRoomScan s.today roomId cid cod (sheetRows s n) = none := by
        unfold sheetFindsRoom at hfind
        rw [hcols] at hfind
        unfold sheetRoomScan
        rw [hcols]
        split
        · rfl
        rename_i hlen
        rcases orc with _ | ric
        · rfl
        · rcases hf : ((sheetRows s n).drop 1).find? (fun row =>
              decide (ric < row.length) && (pyStrip (row.getD ric "") == pyStrip roomId)) with
            _ | row
          · simp only [hf]
          · exfalso
            simp only [hf] at hfind
            simp at hfind
            omega
      simp only [hscan]
      refine ih (fun m hm => hsub m (List.mem_cons_of_mem n hm))
        (fun m hm => hno m (List.mem_cons_of_mem n hm)) ?_
      rw [List.any_cons, hfind] at hfound
      simpa using hfound
    · -- room found here: the scan returns `some outcome` with no conflict
      unfold sheetFindsRoom at hfind
      rw [hcols] at hfind
      rw [Bool.and_eq_true] at hfind
      obtain ⟨hlen, hrest⟩ := hfind
      rcases orc with _ | ric
      · simp at hrest
      rcases hf : ((sheetRows s n).drop 1).find? (fun row =>
          decide (ric < row.length) && (pyStrip (row.getD ric "") == pyStrip roomId)) with
        _ | row
      · simp only [hf] at hrest
        simp at hrest
      have hmemrow : row ∈ (sheetRows s n).drop 1 := List.mem_of_find?_eq_some hf
      have hpred := List.find?_some hf
      rw [Bool.and_eq_true] at hpred
      have hmatch : pyStrip (row.getD ric "") = pyStrip roomId := by
        have := hpred.2
        simpa using this
      have houtcome : roomRowOutcome s.today bdc cid cod row = none :=
        hno n (List.mem_cons_self n rest) ric bdc hcols row hmemrow hmatch
      have hscan : sheetRoomScan s.today roomId cid cod (sheetRows s n) = some none := by
        unfold sheetRoomScan
        rw [if_neg (by simp at hlen ⊢; omega), hcols]
        simp only [hf, houtcome]
      simp only [hscan]

theorem columnCheck_available (s : SheetsState) (roomId checkIn checkOut : String)
    (cid cod : PyDate) (hci : parseDate checkIn = some cid) (hco : parseDate checkOut = some cod)
    (hlt : dateLt cid cod = true) (hfut : dateLe s.today cid = true)
    (hFound : (hotelTypedSheets s).any (fun n => sheetFindsRoom roomId (sheetRows s n)) = true)
    (hNoOverlap : ∀ n ∈ hotelTypedSheets s, ∀ ric bdc,
        detectRoomSheetCols ((sheetRows s n).headD []) = (some ric, bdc) →
        ∀ row ∈ (sheetRows s n).drop 1, pyStrip (row.getD ric "") = pyStrip roomId →
        roomRowOutcome s.today bdc cid cod row = none) :
    checkRoomAvailabilityFromBookedDatesColumn s roomId checkIn checkOut
      = (true, "Room is available for these dates.") := by
  unfold checkRoomAvailabilityFromBookedDatesColumn
  rw [hci, hco]
  simp only [columnScan_available s roomId cid cod (hotelTypedSheets s)
      (fun n hn => List.mem_of_mem_filter hn) hNoOverlap hFound,
    dateLe_false_of_lt hlt, dateLt_false_of_le hfut, Bool.false_eq_true, if_false, ite_false]

/-- C3: for a room present in a hotel sheet, with no booking row for it in
any booking-named sheet and no overlapping booked-dates range, `create_booking`
with valid dates (check-in < check-out, check-in ≥ today) succeeds: it returns
the generated booking ID and the booking row for that room is inserted into
the pending sheet (no substitution occurs). -/
theorem claim3_fresh_booking_succeeds (s : SheetsState)
    (customerName phone checkIn checkOut roomType roomName roomId : String)
    (numRooms guests : Nat) (price status : String) (cid cod : PyDate)
    (hci : parseDate checkIn = some cid) (hco : parseDate checkOut = some cod)
    (hlt : dateLt cid cod = true) (hfut : dateLe s.today cid = true)
    (hNoBooking : ∀ n ∈ bookingNamedSheets s, ∀ ric cic coc stc,
        detectBookingCols ((sheetRows s n).headD []) = (some ric, some cic, some coc, stc) →
        ∀ row ∈ (sheetRows s n).drop 1, pyStrip (row.getD ric "") ≠ pyStrip roomId)
    (hFound : (hotelTypedSheets s).any (fun n => sheetFindsRoom roomId (sheetRows s n)) = true)
    (hNoOverlap : ∀ n ∈ hotelTypedSheets s, ∀ ric bdc,
        detectRoomSheetCols ((sheetRows s n).headD []) = (some ric, bdc) →
        ∀ row ∈ (sheetRows s n).drop 1, pyStrip (row.getD ric "") = pyStrip roomId →
        roomRowOutcome s.today bdc cid cod row = none) :
    (createBooking s customerName phone checkIn checkOut roomType roomName roomId
        numRooms guests price status).1 = some ("BK" ++ natToStr s.nowMs)
    ∧ ["BK" ++ natToStr s.nowMs, customerName, phone, checkIn, checkOut, roomType,
        roomName, roomId, natToStr numRooms, natToStr guests, price, status, s.nowStr, ""]
      ∈ sheetRows (createBooking s customerName phone checkIn checkOut roomType roomName
          roomId numRooms guests price status).2 pendingBookingsSheetName := by
  have h1 := checkByDate_available s roomId checkIn checkOut cid cod hci hco hlt hfut hNoBooking
  have h2 := columnCheck_available s roomId checkIn checkOut cid cod hci hco hlt hfut
    hFound hNoOverlap
  unfold createBooking
  rw [h1, h2]
  simp only [Bool.and_self, eq_self_iff_true, if_true, ite_true, true_and]
  rw [sheetRows_invalidateSheetCache,
    sheetRows_setSheetRows _ _ _ (findSheet_getOrCreatePending s)]
  exact insertBookingSorted_mem _ _ _

/-- Witness for C3 at a concrete fresh room and valid dates. -/
theorem claim3_witness :
    (createBooking c3WitState "Alice" "77" "2026-01-10" "2026-01-12" "Twin" "Twin A" "R1"
        1 2 "100" "pending").1 = some ("BK" ++ natToStr c3WitState.nowMs)
    ∧ ["BK" ++ natToStr c3WitState.nowMs, "Alice", "77", "2026-01-10", "2026-01-12", "Twin",
        "Twin A", "R1", natToStr 1, natToStr 2, "100", "pending", c3WitState.nowStr, ""]
      ∈ sheetRows (createBooking c3WitState "Alice" "77" "2026-01-10" "2026-01-12" "Twin"
          "Twin A" "R1" 1 2 "100" "pending").2 pendingBookingsSheetName := by
  refine claim3_fresh_booking_succeeds c3WitState "Alice" "77" "2026-01-10" "2026-01-12"
    "Twin" "Twin A" "R1" 1 2 "100" "pending" ⟨2026, 1, 10⟩ ⟨2026, 1, 12⟩
    (by decide) (by decide) (by decide) (by decide) ?_ (by decide) ?_
  · intro n hn
    rw [(by decide : bookingNamedSheets c3WitState = [])] at hn
    exact absurd hn (List.not_mem_nil n)
  · intro n hn ric bdc hcols row hrow hmatch
    rw [(by decide : hotelTypedSheets c3WitState = ["Rooms"])] at hn
    have hn' : n = "Rooms" := by simpa using hn
    subst hn'
    rw [(by decide : sheetRows c3WitState "Rooms"
      = [["Room ID", "Booked Dates"], ["R1", ""]])] at hcols hrow
    rw [(by decide : detectRoomSheetCols
      ((([["Room ID", "Booked Dates"], ["R1", ""]] : List (List String))).headD [])
      = (some 0, some 1))] at hcols
    have hric : ric = 0 := by
      have := congrArg Prod.fst hcols
      simpa using this.symm
    have hbdc : bdc = some 1 := by
      have := congrArg Prod.snd hcols
      simpa using this.symm
    subst hric
    subst hbdc
    have hrow' : row = ["R1", ""] := by simpa using hrow
    subst hrow'
    decide

/-! ### Lemmas about in-place cell updates and sheet framing -/

theorem getOrCreatePending_eq (s : SheetsState)
    (h : (findSheet s pendingBookingsSheetName).isSome = true) :
    getOrCreatePendingSheet s = s := by
  unfold getOrCreatePendingSheet
  rcases hf : findSheet s pendingBookingsSheetName with _ | sh
  · rw [hf] at h
    simp at h
  · rfl

theorem findSheet_isSome_of_rows (s : SheetsState) (name : String)
    (h : sheetRows s name ≠ []) : (findSheet s name).isSome = true := by
  rcases hf : findSheet s name with _ | sh
  · exact absurd (by simp [sheetRows, hf]) h
  · simp

theorem sheetRows_setSheetRows_ne (s : SheetsState) (name other : String)
    (rows : List (List String)) (h : other ≠ name) :
    sheetRows (setSheetRows s name rows) other = sheetRows s other := by
  rcases s with ⟨sheets, cache, today, hour, nowStr, nowMs⟩
  simp only [sheetRows, findSheet, setSheetRows]
  induction sheets with
  | nil => rfl
  | cons sh t ih =>
    simp only [List.map_cons]
    rcases hn : sh.name == name with _ | _
    · rw [if_neg (by simp [hn])]
      rcases ho : sh.name == other with _ | _
      · rw [List.find?_cons_of_neg _ (by simp [ho]), List.find?_cons_of_neg _ (by simp [ho])]
        exact ih
      · rw [List.find?_cons_of_pos _ (by simpa using ho),
          List.find?_cons_of_pos _ (by simpa using ho)]
    · rw [if_pos rfl]
      have hshname : sh.name = name := by simpa using hn
      have hno : (sh.name == other) = false := by
        rw [hshname]
        simp only [beq_eq_false_iff_ne]
        exact fun hc => h hc.symm
      simp only [List.find?_cons, hno]
      exact ih

theorem wsUpdateCellAt_length (rows : List (List String)) (r1 c1 : Nat) (v : String) :
    (wsUpdateCellAt rows r1 c1 v).length = rows.length := by
  unfold wsUpdateCellAt
  rcases h : rows.get? (r1 - 1) with _ | row
  · rfl
  · simp

theorem wsUpdateCellAt_get_self (rows : List (List String)) (r1 c1 : Nat) (v : String)
    (row : List String) (h : rows.get? (r1 - 1) = some row) :
    (wsUpdateCellAt rows r1 c1 v).get? (r1 - 1) = some (setCellIn row (c1 - 1) v) := by
  unfold wsUpdateCellAt
  rw [h]
  obtain ⟨hlt, _⟩ := List.get?_eq_some.mp h
  simp [List.get?_eq_getElem?, List.getElem?_set, hlt]

theorem wsUpdateCellAt_get_ne (rows : List (List String)) (r1 c1 : Nat) (v : String)
    (i : Nat) (h : i ≠ r1 - 1) :
    (wsUpdateCellAt rows r1 c1 v).get? i = rows.get? i := by
  unfold wsUpdateCellAt
  rcases hr : rows.get? (r1 - 1) with _ | row
  · rfl
  · simp [List.get?_eq_getElem?, List.getElem?_set_ne (fun hh => h hh.symm)]

/-! ### The booking-location loop -/

theorem findBookingRowGo_spec (bookingId : String) :
    ∀ (l : List (List String)) (k : Nat) (b : Bool) (idx : Nat) (row : List String),
      findBookingRowGo bookingId l k b = some (idx, row) →
      k ≤ idx ∧ l.get? (idx - k) = some row := by
  intro l
  induction l with
  | nil =>
    intro k b idx row h
    simp [findBookingRowGo] at h
  | cons r rest ih =>
    intro k b idx row h
    have step : ∀ (b' : Bool), findBookingRowGo bookingId rest (k + 1) b' = some (idx, row) →
        k ≤ idx ∧ (r :: rest).get? (idx - k) = some row := by
      intro b' hgo
      obtain ⟨h1, h2⟩ := ih (k + 1) b' idx row hgo
      refine ⟨by omega, ?_⟩
      have heq : idx - k = (idx - (k + 1)) + 1 := by omega
      rw [heq]
      simpa using h2
    unfold findBookingRowGo at h
    split at h
    · exact step _ h
    · split at h
      · exact step _ h
      · split at h
        · exact step _ h
        · split at h
          · rw [Option.some.injEq, Prod.mk.injEq] at h
            obtain ⟨hidx, hrow⟩ := h
            subst hidx
            subst hrow
            simp
          · exact step _ h

theorem findBookingRow_spec (rows : List (List String)) (bookingId : String)
    (idx : Nat) (row : List String)
    (h : findBookingRow rows bookingId = some (idx, row)) :
    1 ≤ idx ∧ rows.get? (idx - 1) = some row :=
  findBookingRowGo_spec bookingId rows 1 false idx row h

/-- C4: rejecting a pending booking (any status other than approved or
confirmed) returns success and updates only the Status cell and, when notes
are given, the Notes cell of that pending row; the row count of the pending
sheet is unchanged (the row stays), all other pending rows are unchanged,
and every other sheet — archives, room availability, booked dates — is left
exactly as it was. -/
theorem claim4_reject_updates_in_place (s : SheetsState) (bookingId status notes : String)
    (rowIdx : Nat) (bookingRow : List String)
    (hstat : ["approved", "confirmed"].contains (pyLower status) = false)
    (hlen : 2 ≤ (sheetRows s pendingBookingsSheetName).length)
    (hfind : findBookingRow (sheetRows s pendingBookingsSheetName) bookingId
      = some (rowIdx, bookingRow)) :
    (updateBookingStatus s bookingId status notes).1 = true
    ∧ (sheetRows s pendingBookingsSheetName).get? (rowIdx - 1) = some bookingRow
    ∧ (sheetRows (updateBookingStatus s bookingId status notes).2
        pendingBookingsSheetName).length = (sheetRows s pendingBookingsSheetName).length
    ∧ (sheetRows (updateBookingStatus s bookingId status notes).2
        pendingBookingsSheetName).get? (rowIdx - 1)
        = some (if notes ≠ "" then setCellIn (setCellIn bookingRow 11 status) 13 notes
            else setCellIn bookingRow 11 status)
    ∧ (∀ i, i ≠ rowIdx - 1 →
        (sheetRows (updateBookingStatus s bookingId status notes).2
          pendingBookingsSheetName).get? i
          = (sheetRows s pendingBookingsSheetName).get? i)
    ∧ (∀ name, name ≠ pendingBookingsSheetName →
        sheetRows (updateBookingStatus s bookingId status notes).2 name
          = sheetRows s name) := by
  have hexists : (findSheet s pendingBookingsSheetName).isSome = true :=
    findSheet_isSome_of_rows s _ (by intro hnil; rw [hnil] at hlen; simp at hlen)
  have hs1 : getOrCreatePendingSheet s = s := getOrCreatePending_eq s hexists
  obtain ⟨hidx1, hget⟩ := findBookingRow_spec _ _ _ _ hfind
  have hres : updateBookingStatus s bookingId status notes
      = (true, invalidateSheetCache
          (setSheetRows s pendingBookingsSheetName
            (if notes ≠ "" then
              wsUpdateCellAt (wsUpdateCellAt (sheetRows s pendingBookingsSheetName)
                rowIdx 12 status) rowIdx 14 notes
             else wsUpdateCellAt (sheetRows s pendingBookingsSheetName) rowIdx 12 status))
          pendingBookingsSheetName) := by
    unfold updateBookingStatus rejectBookingState
    rw [hs1, if_neg (by omega), hfind]
    simp only [hstat, Bool.false_eq_true, if_false, ite_false]
  rw [hres]
  simp only [sheetRows_invalidateSheetCache]
  have hrows : sheetRows (setSheetRows s pendingBookingsSheetName
      (if notes ≠ "" then
        wsUpdateCellAt (wsUpdateCellAt (sheetRows s pendingBookingsSheetName)
          rowIdx 12 status) rowIdx 14 notes
       else wsUpdateCellAt (sheetRows s pendingBookingsSheetName) rowIdx 12 status))
      pendingBookingsSheetName
      = (if notes ≠ "" then
          wsUpdateCellAt (wsUpdateCellAt (sheetRows s pendingBookingsSheetName)
            rowIdx 12 status) rowIdx 14 notes
         else wsUpdateCellAt (sheetRows s pendingBookingsSheetName) rowIdx 12 status) :=
    sheetRows_setSheetRows _ _ _ hexists
  rw [hrows]
  refine ⟨trivial, hget, ?_, ?_, ?_, ?_⟩
  · split <;> simp [wsUpdateCellAt_length]
  · split
    · rw [wsUpdateCellAt_get_self _ _ _ _ _
        (wsUpdateCellAt_get_self _ _ _ _ _ hget)]
    · rw [wsUpdateCellAt_get_self _ _ _ _ _ hget]
  · intro i hi
    split
    · rw [wsUpdateCellAt_get_ne _ _ _ _ _ hi, wsUpdateCellAt_get_ne _ _ _ _ _ hi]
    · rw [wsUpdateCellAt_get_ne _ _ _ _ _ hi]
  · intro name hname
    exact sheetRows_setSheetRows_ne s pendingBookingsSheetName name _ hname

/-- Witness for C4: rejecting a concrete pending booking. -/
theorem claim4_witness :
    (updateBookingStatus
      ⟨[⟨"Pending Bookings",
          [standardHeaders,
           ["BK1", "Bob", "77", "2026-01-10", "2026-01-12", "Twin", "Twin A", "R1",
            "1", "2", "100", "pending", "T0", ""]]⟩], [], ⟨2026, 1, 1⟩, 0, "T1", 5⟩
      "BK1" "rejected" "full").1 = true := by
  refine (claim4_reject_updates_in_place
    ⟨[⟨"Pending Bookings",
        [standardHeaders,
         ["BK1", "Bob", "77", "2026-01-10", "2026-01-12", "Twin", "Twin A", "R1",
          "1", "2", "100", "pending", "T0", ""]]⟩], [], ⟨2026, 1, 1⟩, 0, "T1", 5⟩
    "BK1" "rejected" "full" 2
    ["BK1", "Bob", "77", "2026-01-10", "2026-01-12", "Twin", "Twin A", "R1",
     "1", "2", "100", "pending", "T0", ""]
    (by decide) (by decide) (by decide)).1

/-- C10: on a room whose availability cell holds a numeric value (not a
yes-flag), the decrement writes back `max(0, current - num_rooms)` for every
`num_rooms` — the written value is never negative (it is a plain natural
number rendering) — and the per-sheet update performs exactly that write at
the located room's availability cell. -/
theorem claim10_decrement_clamps_at_zero (cur : String) (v numRooms : Int)
    (roomId : String) (rows : List (List String)) (ric avc ridx1 : Nat)
    (hflag : ["yes", "available", "true"].contains (pyLower cur) = false)
    (hnum : parsePyNumber cur = some v)
    (hlen : ¬ rows.length < 2)
    (hcols : detectAvailabilityCols (rows.headD []) = (some ric, some avc))
    (hfindr : findRowIdx1 (rows.drop 1) (fun row =>
        decide (ric < row.length) && (pyStrip (row.getD ric "") == pyStrip roomId))
      = some ridx1)
    (havlt : avc < ((rows.drop 1).getD (ridx1 - 1) []).length)
    (hcell : pyStrip (((rows.drop 1).getD (ridx1 - 1) []).getD avc "") = cur) :
    decrementAvailValue cur numRooms = some (intToStr (max 0 (v - numRooms)))
    ∧ 0 ≤ max 0 (v - numRooms)
    ∧ intToStr (max 0 (v - numRooms)) = natToStr (max 0 (v - numRooms)).natAbs
    ∧ updateAvailCellInSheet roomId (fun c => decrementAvailValue c numRooms) rows
        = some (wsUpdateCellAt rows (ridx1 + 1) (avc + 1)
            (intToStr (max 0 (v - numRooms)))) := by
  have hle : (0 : Int) ≤ max 0 (v - numRooms) := le_max_left 0 (v - numRooms)
  have hval : decrementAvailValue cur numRooms = some (intToStr (max 0 (v - numRooms))) := by
    unfold decrementAvailValue
    rw [if_neg (by rw [hflag]; simp)]
    rcases hemp : (cur == "") with _ | _
    · simp only [hemp, Bool.false_eq_true, if_false, ite_false, hnum]
    · have hc : cur = "" := by simpa using hemp
      have hnone : parsePyNumber "" = none := by decide
      rw [hc, hnone] at hnum
      exact Option.noConfusion hnum
  refine ⟨hval, hle, ?_, ?_⟩
  · unfold intToStr
    rw [if_neg (by omega)]
  · unfold updateAvailCellInSheet
    rw [if_neg hlen, hcols]
    simp only [hfindr, hcell, hval, if_pos havlt]

/-- Witness for C10 at a concrete numeric cell `3` decremented by `1`. -/
theorem claim10_witness :
    decrementAvailValue "3" 1 = some (intToStr (max 0 ((3 : Int) - 1)))
    ∧ updateAvailCellInSheet "R1" (fun c => decrementAvailValue c 1)
        [["Room ID", "Available"], ["R1", "3"]]
      = some (wsUpdateCellAt [["Room ID", "Available"], ["R1", "3"]] 2 2
          (intToStr (max 0 ((3 : Int) - 1)))) := by
  have h := claim10_decrement_clamps_at_zero "3" 3 1 "R1"
    [["Room ID", "Available"], ["R1", "3"]] 0 1 1
    (by decide) (by decide) (by decide) (by decide) (by decide) (by decide) (by decide)
  exact ⟨h.1, h.2.2.2⟩

theorem findSome?_isSome_of_mem {α β : Type} (f : α → Option β) (l : List α) (x : α)
    (hx : x ∈ l) (hfx : (f x).isSome = true) : (l.findSome? f).isSome = true := by
  induction l with
  | nil => simp at hx
  | cons a t ih =>
    rw [List.findSome?_cons]
    rcases ha : f a with _ | b
    · rcases List.mem_cons.mp hx with h | h
      · subst h
        rw [ha] at hfx
        simp at hfx
      · exact ih h
    · simp

theorem dupRowMatch_headD (pIdx rtIdx ciIdx : Nat) (stIdx : Option Nat)
    (phone roomType checkIn : String) (row : List String) (d : String)
    (h : dupRowMatch pIdx rtIdx ciIdx stIdx phone roomType checkIn row = some d) :
    row.headD "N/A" = d := by
  unfold dupRowMatch at h
  split at h
  · split at h
    · exact Option.some.injEq .. ▸ h
    · exact Option.noConfusion h
  · exact Option.noConfusion h

/-- C7: when the pending sheet already holds a pending row with the same
phone, the same room type (case-insensitively) and the same check-in date,
the agent's booking tool short-circuits: the duplicate scan yields an
existing row's Booking ID, the tool's reply names that ID, and the state —
in particular the pending sheet — is unchanged (no new row is inserted). -/
theorem claim7_duplicate_short_circuits (s : SheetsState)
    (customerName phone checkIn checkOut roomType roomName roomId : String)
    (numRooms guests : Nat) (price : String)
    (pIdx rtIdx ciIdx : Nat) (stIdx : Option Nat) (dupRow : List String)
    (hexists : (findSheet s pendingBookingsSheetName).isSome = true)
    (hlen : 1 < (sheetRows s pendingBookingsSheetName).length)
    (hcols : detectDupCols ((sheetRows s pendingBookingsSheetName).headD [])
      = (some pIdx, some rtIdx, some ciIdx, stIdx))
    (hmem : dupRow ∈ (sheetRows s pendingBookingsSheetName).drop 1)
    (hmatch : (dupRowMatch pIdx rtIdx ciIdx stIdx phone roomType checkIn dupRow).isSome
      = true) :
    ∃ dupId,
      findDuplicateBooking (sheetRows s pendingBookingsSheetName) phone roomType checkIn
        = some dupId
      ∧ (∃ row ∈ (sheetRows s pendingBookingsSheetName).drop 1,
          dupRowMatch pIdx rtIdx ciIdx stIdx phone roomType checkIn row = some dupId
          ∧ row.headD "N/A" = dupId)
      ∧ agentCreateBookingTool s customerName phone checkIn checkOut roomType roomName
          roomId numRooms guests price
        = (s, "✅ You already have a pending booking for " ++ roomType ++ " on " ++ checkIn
            ++ "! Booking ID: " ++ dupId
            ++ "\nOur team will contact you at " ++ phone ++ " for confirmation.") := by
  have hs1 : getOrCreatePendingSheet s = s := getOrCreatePending_eq s hexists
  have hdupSome : (((sheetRows s pendingBookingsSheetName).drop 1).findSome?
      (dupRowMatch pIdx rtIdx ciIdx stIdx phone roomType checkIn)).isSome = true :=
    findSome?_isSome_of_mem _ _ dupRow hmem hmatch
  rcases hfs : ((sheetRows s pendingBookingsSheetName).drop 1).findSome?
      (dupRowMatch pIdx rtIdx ciIdx stIdx phone roomType checkIn) with _ | dupId
  · rw [hfs] at hdupSome
    simp at hdupSome
  obtain ⟨row, hrowmem, hrowmatch⟩ := List.exists_of_findSome?_eq_some hfs
  have hdup : findDuplicateBooking (sheetRows s pendingBookingsSheetName)
      phone roomType checkIn = some dupId := by
    unfold findDuplicateBooking
    rw [if_neg (by omega), hcols]
    exact hfs
  refine ⟨dupId, hdup, ⟨row, hrowmem, hrowmatch,
    dupRowMatch_headD _ _ _ _ _ _ _ _ _ hrowmatch⟩, ?_⟩
  unfold agentCreateBookingTool
  rw [hs1]
  simp only [hdup]

/-- Witness for C7: a concrete duplicate pending booking short-circuits the
tool. -/
theorem claim7_witness :
    ∃ dupId,
      findDuplicateBooking
        [standardHeaders,
         ["BK9", "Bob", "77", "2026-01-10", "2026-01-12", "Twin", "Twin A", "R1",
          "1", "2", "100", "pending", "T0", ""]] "77" "Twin" "2026-01-10" = some dupId
      ∧ (∃ row ∈ ([standardHeaders,
          ["BK9", "Bob", "77", "2026-01-10", "2026-01-12", "Twin", "Twin A", "R1",
           "1", "2", "100", "pending", "T0", ""]] : List (List String)).drop 1,
          dupRowMatch 2 5 3 (some 11) "77" "Twin" "2026-01-10" row = some dupId
          ∧ row.headD "N/A" = dupId)
      ∧ agentCreateBookingTool
          ⟨[⟨"Pending Bookings",
             [standardHeaders,
              ["BK9", "Bob", "77", "2026-01-10", "2026-01-12", "Twin", "Twin A", "R1",
               "1", "2", "100", "pending", "T0", ""]]⟩], [], ⟨2026, 1, 1⟩, 0, "T1", 6⟩
          "Bob" "77" "2026-01-10" "2026-01-12" "Twin" "Twin A" "R1" 1 2 "100"
        = (⟨[⟨"Pending Bookings",
             [standardHeaders,
              ["BK9", "Bob", "77", "2026-01-10", "2026-01-12", "Twin", "Twin A", "R1",
               "1", "2", "100", "pending", "T0", ""]]⟩], [], ⟨2026, 1, 1⟩, 0, "T1", 6⟩,
           "✅ You already have a pending booking for " ++ "Twin" ++ " on " ++ "2026-01-10"
            ++ "! Booking ID: " ++ dupId
            ++ "\nOur team will contact you at " ++ "77" ++ " for confirmation.") := by
  have h := claim7_duplicate_short_circuits
    ⟨[⟨"Pending Bookings",
       [standardHeaders,
        ["BK9", "Bob", "77", "2026-01-10", "2026-01-12", "Twin", "Twin A", "R1",
         "1", "2", "100", "pending", "T0", ""]]⟩], [], ⟨2026, 1, 1⟩, 0, "T1", 6⟩
    "Bob" "77" "2026-01-10" "2026-01-12" "Twin" "Twin A" "R1" 1 2 "100"
    2 5 3 (some 11)
    ["BK9", "Bob", "77", "2026-01-10", "2026-01-12", "Twin", "Twin A", "R1",
     "1", "2", "100", "pending", "T0", ""]
    (by decide) (by decide) (by decide) (by decide) (by decide)
  exact h

/-! ### String and naming facts for the sheet-frame reasoning -/

theorem strData_append (a b : String) : (a ++ b).data = a.data ++ b.data := by
  rcases a with ⟨da⟩
  rcases b with ⟨db⟩
  rfl

theorem pySplitGo_ne_nil (sep : List Char) :
    ∀ (fuel : Nat) (l cur : List Char), pySplitGo sep fuel l cur ≠ [] := by
  intro fuel
  induction fuel with
  | zero =>
    intro l cur
    rcases l with _ | ⟨c, rest⟩ <;> simp [pySplitGo]
  | succ f ih =>
    intro l cur
    rcases l with _ | ⟨c, rest⟩
    · simp [pySplitGo]
    · unfold pySplitGo
      split
      · simp
      · exact ih rest _

theorem strContains_of_isPrefixOf (s pat : String)
    (h : pat.data.isPrefixOf s.data = true) (hs : s.data ≠ []) :
    strContains s pat = true := by
  unfold strContains pySplit
  rcases hd : s.data with _ | ⟨c, rest⟩
  · exact absurd hd hs
  rw [hd] at h
  simp only [hd, List.length_cons]
  unfold pySplitGo
  rw [if_pos h]
  simp only [decide_eq_true_eq, List.length_map, List.length_cons]
  have := pySplitGo_ne_nil pat.data rest.length (rest.drop (pat.data.length - 1)) []
  have hpos : 0 < (pySplitGo pat.data rest.length (rest.drop (pat.data.length - 1)) []).length :=
    List.length_pos.mpr this
  omega

theorem monthlySheetName_ne_pending (d : PyDate) :
    monthlySheetName d ≠ pendingBookingsSheetName := by
  intro h
  have hB : (monthlySheetName d).data.head? = some 'B' := by
    unfold monthlySheetName
    rw [strData_append, strData_append, strData_append]
    rfl
  rw [h] at hB
  exact absurd hB (by decide)

theorem pyLower_append (a b : String) : pyLower (a ++ b) = pyLower a ++ pyLower b := by
  rcases a with ⟨da⟩
  rcases b with ⟨db⟩
  show String.mk ((da ++ db).map charLower) = String.mk (da.map charLower) ++ String.mk (db.map charLower)
  rw [List.map_append]
  rfl

theorem strContains_monthlySheetName_booking (d : PyDate) :
    strContains (pyLower (monthlySheetName d)) "booking" = true := by
  apply strContains_of_isPrefixOf
  · unfold monthlySheetName
    rw [pyLower_append, pyLower_append, pyLower_append]
    rw [strData_append, strData_append, strData_append]
    show ("booking".data).isPrefixOf (("bookings ".data ++ _) ++ _ ++ _) = true
    rw [List.append_assoc, List.append_assoc]
    show List.isPrefixOf ['b', 'o', 'o', 'k', 'i', 'n', 'g']
      (['b', 'o', 'o', 'k', 'i', 'n', 'g', 's', ' '] ++ _) = true
    rfl
  · unfold monthlySheetName
    rw [pyLower_append, pyLower_append, pyLower_append]
    rw [strData_append, strData_append, strData_append]
    intro hcontra
    have hlen := congrArg List.length hcontra
    simp only [List.length_append, List.length_nil] at hlen
    have h9 : (pyLower "Bookings ").data.length = 9 := by decide
    omega

theorem detectSheetType_of_contains_booking (s : SheetsState) (name : String)
    (h : strContains (pyLower name) "booking" = true) :
    detectSheetType s name = "booking" := by
  have hany : bookingTypeWords.any (fun w => strContains (pyLower name) w) = true := by
    simp only [bookingTypeWords, List.any_cons, List.any_nil, h, Bool.true_or, Bool.or_false]
  unfold detectSheetType
  rw [if_pos hany]

theorem mem_hotelTypedSheets_ne (s : SheetsState) (n target : String)
    (hn : n ∈ hotelTypedSheets s)
    (ht : strContains (pyLower target) "booking" = true) : n ≠ target := by
  intro he
  have hdet := (List.mem_filter.mp hn).2
  rw [he, detectSheetType_of_contains_booking s target ht] at hdet
  exact absurd hdet (by decide)

/-! ### Sheet-existence and frame lemmas -/

theorem findSheet_setSheetRows_isSome (s : SheetsState) (name m : String)
    (rows : List (List String)) :
    (findSheet (setSheetRows s name rows) m).isSome = (findSheet s m).isSome := by
  rcases s with ⟨sheets, cache, today, hour, nowStr, nowMs⟩
  simp only [findSheet, setSheetRows]
  induction sheets with
  | nil => rfl
  | cons sh t ih =>
    simp only [List.map_cons]
    rcases hn : (sh.name == name) with _ | _
    · rw [if_neg (by simp)]
      simp only [List.find?_cons]
      rcases hm : (sh.name == m) with _ | _
      · simp only [hm]
        exact ih
      · simp only [hm]
    · rw [if_pos rfl]
      simp only [List.find?_cons]
      have hEq : ((Sheet.mk sh.name rows).name == m) = (sh.name == m) := rfl
      rw [hEq]
      rcases hm : (sh.name == m) with _ | _
      · simp only [hm]
        exact ih
      · simp only [hm]
        rfl

theorem findSheet_addSheet_isSome (s : SheetsState) (name m : String)
    (rows : List (List String)) (h : (findSheet s m).isSome = true) :
    (findSheet (addSheet s name rows) m).isSome = true := by
  rcases s with ⟨sheets, cache, today, hour, nowStr, nowMs⟩
  simp only [findSheet, addSheet] at *
  rw [List.find?_append]
  rcases hf : sheets.find? (fun sh => sh.name == m) with _ | sh
  · rw [hf] at h
    simp at h
  · rw [hf]
    rfl

theorem sheetRows_addSheet_of_exists (s : SheetsState) (name m : String)
    (rows : List (List String)) (h : (findSheet s m).isSome = true) :
    sheetRows (addSheet s name rows) m = sheetRows s m := by
  rcases s with ⟨sheets, cache, today, hour, nowStr, nowMs⟩
  simp only [findSheet] at h
  simp only [sheetRows, findSheet, addSheet]
  rw [List.find?_append]
  rcases hf : sheets.find? (fun sh => sh.name == m) with _ | sh
  · rw [hf] at h
    simp at h
  · rw [hf]
    rfl

theorem findSheet_getOrCreateMonthly_isSome (s : SheetsState) (d : PyDate) :
    (findSheet (getOrCreateMonthlySheet s d) (monthlySheetName d)).isSome = true := by
  unfold getOrCreateMonthlySheet
  rcases h : findSheet s (monthlySheetName d) with _ | sh
  · rcases s with ⟨sheets, cache, today, hour, nowStr, nowMs⟩
    simp only [findSheet, addSheet]
    rw [List.find?_append]
    simp only [findSheet] at h
    rw [h]
    simp
  · simp [h]

theorem sheetRows_getOrCreateMonthly_of_exists (s : SheetsState) (d : PyDate)
    (m : String) (h : (findSheet s m).isSome = true) :
    sheetRows (getOrCreateMonthlySheet s d) m = sheetRows s m := by
  unfold getOrCreateMonthlySheet
  rcases hf : findSheet s (monthlySheetName d) with _ | sh
  · exact sheetRows_addSheet_of_exists s _ m _ h
  · rfl

theorem findSheet_getOrCreateMonthly_isSome_other (s : SheetsState) (d : PyDate)
    (m : String) (h : (findSheet s m).isSome = true) :
    (findSheet (getOrCreateMonthlySheet s d) m).isSome = true := by
  unfold getOrCreateMonthlySheet
  rcases hf : findSheet s (monthlySheetName d) with _ | sh
  · exact findSheet_addSheet_isSome s _ m _ h
  · exact h

theorem updateFirstSheet_frame :
    ∀ (L : List String) (s : SheetsState)
      (upd : List (List String) → Option (List (List String))) (target : String),
      (∀ n ∈ L, n ≠ target) →
      sheetRows (updateFirstSheet s L upd).2 target = sheetRows s target := by
  intro L
  induction L with
  | nil => intro s upd target h; rfl
  | cons n rest ih =>
    intro s upd target h
    show sheetRows (updateFirstSheet s (n :: rest) upd).2 target = sheetRows s target
    unfold updateFirstSheet
    rcases hr : readAllData s n with _ | rows
    · exact ih s upd target (fun m hm => h m (List.mem_cons_of_mem n hm))
    · rcases hu : upd rows with _ | rr
      · simp only [hu]
        exact ih s upd target (fun m hm => h m (List.mem_cons_of_mem n hm))
      · simp only [hu, sheetRows_invalidateSheetCache]
        exact sheetRows_setSheetRows_ne s n target rr
          (Ne.symm (h n (List.mem_cons_self n rest)))

theorem updateRoomBookedDates_preserves_booking (st : SheetsState)
    (rid ci co : String) (add : Bool) (target : String)
    (ht : strContains (pyLower target) "booking" = true) :
    sheetRows (updateRoomBookedDates st rid ci co add).2 target = sheetRows st target := by
  unfold updateRoomBookedDates
  rcases parseDate ci with _ | cid <;> rcases parseDate co with _ | cod <;> try rfl
  exact updateFirstSheet_frame _ _ _ _
    (fun m hm => mem_hotelTypedSheets_ne st m target hm ht)

theorem decrementRoomAvailability_preserves_booking (st : SheetsState)
    (rid : String) (n : Int) (target : String)
    (ht : strContains (pyLower target) "booking" = true) :
    sheetRows (decrementRoomAvailabilityById st rid n).2 target = sheetRows st target := by
  unfold decrementRoomAvailabilityById
  exact updateFirstSheet_frame _ _ _ _
    (fun m hm => mem_hotelTypedSheets_ne st m target hm ht)

theorem makeRoomAvailable_preserves_booking (st : SheetsState)
    (rid : String) (target : String)
    (ht : strContains (pyLower target) "booking" = true) :
    sheetRows (makeRoomAvailable st rid).2 target = sheetRows st target := by
  unfold makeRoomAvailable
  exact updateFirstSheet_frame _ _ _ _
    (fun m hm => mem_hotelTypedSheets_ne st m target hm ht)

theorem sheetRows_addSheet_ne (s : SheetsState) (name m : String)
    (rows : List (List String)) (h : m ≠ name) :
    sheetRows (addSheet s name rows) m = sheetRows s m := by
  rcases s with ⟨sheets, cache, today, hour, nowStr, nowMs⟩
  simp only [sheetRows, findSheet, addSheet]
  rw [List.find?_append]
  rcases hf : sheets.find? (fun sh => sh.name == m) with _ | sh
  · rw [hf]
    have hone : ([(⟨name, rows⟩ : Sheet)].find? (fun sh => sh.name == m)) = none := by
      simp only [List.find?_cons, List.find?_nil]
      have : ((⟨name, rows⟩ : Sheet).name == m) = false := by
        simp only [beq_eq_false_iff_ne]
        exact fun hc => h hc.symm
      rw [this]
    rw [hone]
    rfl
  · rw [hf]
    rfl

theorem sheetRows_getOrCreateMonthly_ne (s : SheetsState) (d : PyDate) (m : String)
    (h : m ≠ monthlySheetName d) :
    sheetRows (getOrCreateMonthlySheet s d) m = sheetRows s m := by
  unfold getOrCreateMonthlySheet
  rcases hf : findSheet s (monthlySheetName d) with _ | sh
  · exact sheetRows_addSheet_ne s _ m _ h
  · rfl

theorem archivePhase_frame (st : SheetsState) (d : PyDate) (mr : List String)
    (t : PyDate) (m : String) (h : m ≠ monthlySheetName d) :
    sheetRows (archivePhase st d mr t) m = sheetRows st m := by
  unfold archivePhase
  rw [sheetRows_setSheetRows_ne _ _ _ _ h]
  split
  · rw [sheetRows_setSheetRows_ne _ _ _ _ h]
    exact sheetRows_getOrCreateMonthly_ne st d m h
  · exact sheetRows_getOrCreateMonthly_ne st d m h

theorem archivePhase_isSome (st : SheetsState) (d : PyDate) (mr : List String)
    (t : PyDate) (m : String) (h : (findSheet st m).isSome = true) :
    (findSheet (archivePhase st d mr t) m).isSome = true := by
  unfold archivePhase
  rw [findSheet_setSheetRows_isSome]
  split
  · rw [findSheet_setSheetRows_isSome]
    exact findSheet_getOrCreateMonthly_isSome_other st d m h
  · exact findSheet_getOrCreateMonthly_isSome_other st d m h

theorem archivePhase_monthly (st : SheetsState) (d : PyDate) (mr : List String)
    (t : PyDate) :
    sheetRows (archivePhase st d mr t) (monthlySheetName d)
      = wsInsertRowAt
          (if (sheetRows (getOrCreateMonthlySheet st d) (monthlySheetName d)).length < 1
            then [monthlyHeaders]
            else sheetRows (getOrCreateMonthlySheet st d) (monthlySheetName d))
          (monthlyInsertRow ((parseDate (mr.getD 3 "")).getD t)
            (if (sheetRows (getOrCreateMonthlySheet st d) (monthlySheetName d)).length < 1
              then [monthlyHeaders]
              else sheetRows (getOrCreateMonthlySheet st d) (monthlySheetName d)))
          mr := by
  unfold archivePhase
  apply sheetRows_setSheetRows
  split
  · rw [findSheet_setSheetRows_isSome]
    exact findSheet_getOrCreateMonthly_isSome st d
  · exact findSheet_getOrCreateMonthly_isSome st d

theorem wsDeleteRowAt_length (rows : List (List String)) (i : Nat)
    (h1 : 1 ≤ i) (h2 : i ≤ rows.length) :
    (wsDeleteRowAt rows i).length + 1 = rows.length := by
  unfold wsDeleteRowAt
  rw [List.length_append, List.length_take, List.length_drop]
  omega

/-- C2: approving a pending booking (status `approved` or `confirmed`)
returns success, deletes the located row from the pending sheet (the row
count drops by one), and inserts exactly one 14-column row into the monthly
archive sheet named after the booking's check-in month — the header-ensured
archive contents plus the single new row — whose Status field is
`confirmed` regardless of the status string passed in. -/
theorem claim2_approval_archives (s : SheetsState) (bookingId status notes : String)
    (rowIdx : Nat) (bookingRow : List String) (d : PyDate)
    (hstat : ["approved", "confirmed"].contains (pyLower status) = true)
    (hlen : 2 ≤ (sheetRows s pendingBookingsSheetName).length)
    (hfind : findBookingRow (sheetRows s pendingBookingsSheetName) bookingId
      = some (rowIdx, bookingRow))
    (hrowlen : 3 < bookingRow.length)
    (hparse : parseDate (pyStrip (bookingRow.getD 3 "")) = some d) :
    (updateBookingStatus s bookingId status notes).1 = true
    ∧ (sheetRows s pendingBookingsSheetName).get? (rowIdx - 1) = some bookingRow
    ∧ sheetRows (updateBookingStatus s bookingId status notes).2 pendingBookingsSheetName
        = wsDeleteRowAt (sheetRows s pendingBookingsSheetName) rowIdx
    ∧ (sheetRows (updateBookingStatus s bookingId status notes).2
        pendingBookingsSheetName).length + 1
        = (sheetRows s pendingBookingsSheetName).length
    ∧ (∃ pre suf,
        sheetRows (updateBookingStatus s bookingId status notes).2 (monthlySheetName d)
          = pre ++ approvedMonthlyRow bookingRow s.nowStr notes :: suf
        ∧ pre ++ suf
          = (if (sheetRows (getOrCreateMonthlySheet s d) (monthlySheetName d)).length < 1
              then [monthlyHeaders]
              else sheetRows (getOrCreateMonthlySheet s d) (monthlySheetName d)))
    ∧ (approvedMonthlyRow bookingRow s.nowStr notes).length = 14
    ∧ (approvedMonthlyRow bookingRow s.nowStr notes).getD 11 "" = "confirmed" := by
  have hexists : (findSheet s pendingBookingsSheetName).isSome = true :=
    findSheet_isSome_of_rows s _ (by intro hnil; rw [hnil] at hlen; simp at hlen)
  have hs1 : getOrCreatePendingSheet s = s := getOrCreatePending_eq s hexists
  obtain ⟨hidx1, hget⟩ := findBookingRow_spec _ _ _ _ hfind
  have hbranch : updateBookingStatus s bookingId status notes
      = (true, approveBookingState s s.nowStr rowIdx bookingRow notes) := by
    unfold updateBookingStatus
    rw [hs1, if_neg (by omega), hfind]
    simp only [hstat, if_true, ite_true]
  have hcheckin : approveCheckInDate s bookingRow = d := by
    unfold approveCheckInDate
    rw [if_pos hrowlen, hparse]
  have hPB : strContains (pyLower pendingBookingsSheetName) "booking" = true := by decide
  have hMB : strContains (pyLower (monthlySheetName d)) "booking" = true :=
    strContains_monthlySheetName_booking d
  have hmne : monthlySheetName d ≠ pendingBookingsSheetName := monthlySheetName_ne_pending d
  have step7 : ∀ (st : SheetsState) (c : Prop) (i : Decidable c) (r : String) (n : Int)
      (target : String), strContains (pyLower target) "booking" = true →
      sheetRows (if c then (decrementRoomAvailabilityById st r n).2 else st) target
        = sheetRows st target := by
    intro st c i r n target ht
    split
    · exact decrementRoomAvailability_preserves_booking st r n target ht
    · rfl
  have step6 : ∀ (st : SheetsState) (c : Prop) (i : Decidable c) (r ci co : String)
      (target : String), strContains (pyLower target) "booking" = true →
      sheetRows (if c then (updateRoomBookedDates st r ci co true).2 else st) target
        = sheetRows st target := by
    intro st c i r ci co target ht
    split
    · exact updateRoomBookedDates_preserves_booking st r ci co true target ht
    · rfl
  have hex4 : (findSheet (archivePhase s d (approvedMonthlyRow bookingRow s.nowStr notes)
      s.today) pendingBookingsSheetName).isSome = true :=
    archivePhase_isSome s d _ s.today _ hexists
  have hpendframe : sheetRows (archivePhase s d (approvedMonthlyRow bookingRow s.nowStr notes)
      s.today) pendingBookingsSheetName = sheetRows s pendingBookingsSheetName :=
    archivePhase_frame s d _ s.today _ (Ne.symm hmne)
  have hpend : sheetRows (approveBookingState s s.nowStr rowIdx bookingRow notes)
      pendingBookingsSheetName
      = wsDeleteRowAt (sheetRows s pendingBookingsSheetName) rowIdx := by
    unfold approveBookingState
    rw [hcheckin]
    simp only [sheetRows_invalidateSheetCache]
    rw [step7 _ _ _ _ _ _ hPB, step6 _ _ _ _ _ _ _ hPB]
    rw [sheetRows_setSheetRows _ _ _ hex4, hpendframe]
  have hmon : sheetRows (approveBookingState s s.nowStr rowIdx bookingRow notes)
      (monthlySheetName d)
      = wsInsertRowAt
          (if (sheetRows (getOrCreateMonthlySheet s d) (monthlySheetName d)).length < 1
            then [monthlyHeaders]
            else sheetRows (getOrCreateMonthlySheet s d) (monthlySheetName d))
          (monthlyInsertRow
            ((parseDate ((approvedMonthlyRow bookingRow s.nowStr notes).getD 3 "")).getD s.today)
            (if (sheetRows (getOrCreateMonthlySheet s d) (monthlySheetName d)).length < 1
              then [monthlyHeaders]
              else sheetRows (getOrCreateMonthlySheet s d) (monthlySheetName d)))
          (approvedMonthlyRow bookingRow s.nowStr notes) := by
    unfold approveBookingState
    rw [hcheckin]
    simp only [sheetRows_invalidateSheetCache]
    rw [step7 _ _ _ _ _ _ hMB, step6 _ _ _ _ _ _ _ hMB]
    rw [sheetRows_setSheetRows_ne _ _ _ _ hmne]
    exact archivePhase_monthly s d _ s.today
  have hml : (approvedMonthlyRow bookingRow s.nowStr notes).length = 14 := by
    unfold approvedMonthlyRow
    simp
  rw [hbranch]
  refine ⟨rfl, hget, hpend, ?_, ?_, hml, ?_⟩
  · rw [hpend]
    have hlt : rowIdx - 1 < (sheetRows s pendingBookingsSheetName).length :=
      (List.get?_eq_some.mp hget).1
    exact wsDeleteRowAt_length _ _ hidx1 (by omega)
  · refine ⟨(if (sheetRows (getOrCreateMonthlySheet s d) (monthlySheetName d)).length < 1
        then [monthlyHeaders]
        else sheetRows (getOrCreateMonthlySheet s d) (monthlySheetName d)).take
          ((monthlyInsertRow
            ((parseDate ((approvedMonthlyRow bookingRow s.nowStr notes).getD 3 "")).getD s.today)
            (if (sheetRows (getOrCreateMonthlySheet s d) (monthlySheetName d)).length < 1
              then [monthlyHeaders]
              else sheetRows (getOrCreateMonthlySheet s d) (monthlySheetName d))) - 1),
      (if (sheetRows (getOrCreateMonthlySheet s d) (monthlySheetName d)).length < 1
        then [monthlyHeaders]
        else sheetRows (getOrCreateMonthlySheet s d) (monthlySheetName d)).drop
          ((monthlyInsertRow
            ((parseDate ((approvedMonthlyRow bookingRow s.nowStr notes).getD 3 "")).getD s.today)
            (if (sheetRows (getOrCreateMonthlySheet s d) (monthlySheetName d)).length < 1
              then [monthlyHeaders]
              else sheetRows (getOrCreateMonthlySheet s d) (monthlySheetName d))) - 1),
      ?_, List.take_append_drop _ _⟩
    rw [hmon]
    rfl
  · unfold approvedMonthlyRow
    have h11 : ((List.range 11).map (fun i => bookingRow.getD i "")).length = 11 := by simp
    rw [List.getD_eq_getElem?_getD, List.getElem?_append_right (by omega), h11]
    rfl

/-- Witness for C2: approving a concrete pending booking. -/
theorem claim2_witness :
    (updateBookingStatus
      ⟨[⟨"Pending Bookings",
          [standardHeaders,
           ["BK2", "Eve", "88", "2026-01-10", "2026-01-12", "Twin", "Twin A", "R1",
            "1", "2", "100", "pending", "T0", ""]]⟩], [], ⟨2026, 1, 1⟩, 0, "T1", 7⟩
      "BK2" "approved" "").1 = true := by
  refine (claim2_approval_archives
    ⟨[⟨"Pending Bookings",
        [standardHeaders,
         ["BK2", "Eve", "88", "2026-01-10", "2026-01-12", "Twin", "Twin A", "R1",
          "1", "2", "100", "pending", "T0", ""]]⟩], [], ⟨2026, 1, 1⟩, 0, "T1", 7⟩
    "BK2" "approved" "" 2
    ["BK2", "Eve", "88", "2026-01-10", "2026-01-12", "Twin", "Twin A", "R1",
     "1", "2", "100", "pending", "T0", ""]
    ⟨2026, 1, 10⟩
    (by decide) (by decide) (by decide) (by decide) (by decide)).1

/-! ### The auto-checkout sweep -/

theorem findSheet_setSheetRows_ne (s : SheetsState) (name other : String)
    (rows : List (List String)) (h : other ≠ name) :
    findSheet (setSheetRows s name rows) other = findSheet s other := by
  rcases s with ⟨sheets, cache, today, hour, nowStr, nowMs⟩
  simp only [findSheet, setSheetRows]
  induction sheets with
  | nil => rfl
  | cons sh t ih =>
    simp only [List.map_cons]
    rcases hn : sh.name == name with _ | _
    · rw [if_neg (by simp [hn])]
      rcases ho : sh.name == other with _ | _
      · rw [List.find?_cons_of_neg _ (by simp [ho]), List.find?_cons_of_neg _ (by simp [ho])]
        exact ih
      · rw [List.find?_cons_of_pos _ (by simpa using ho),
          List.find?_cons_of_pos _ (by simpa using ho)]
    · rw [if_pos rfl]
      have hshname : sh.name = name := by simpa using hn
      have hno : (sh.name == other) = false := by
        rw [hshname]
        simp only [beq_eq_false_iff_ne]
        exact fun hc => h hc.symm
      simp only [List.find?_cons, hno]
      exact ih

theorem readAllData_setSheetRows_ne (s : SheetsState) (name other : String)
    (rows : List (List String)) (h : other ≠ name) :
    readAllData (setSheetRows s name rows) other = readAllData s other := by
  unfold readAllData
  rw [findSheet_setSheetRows_ne s name other rows h]

theorem readAllData_invalidateSheetCache (s : SheetsState) (n m : String) :
    readAllData (invalidateSheetCache s n) m = readAllData s m := rfl

theorem readAllData_updateFirstSheet_frame :
    ∀ (L : List String) (s : SheetsState)
      (upd : List (List String) → Option (List (List String))) (target : String),
      (∀ n ∈ L, n ≠ target) →
      readAllData (updateFirstSheet s L upd).2 target = readAllData s target := by
  intro L
  induction L with
  | nil => intro s upd target h; rfl
  | cons n rest ih =>
    intro s upd target h
    show readAllData (updateFirstSheet s (n :: rest) upd).2 target = readAllData s target
    unfold updateFirstSheet
    rcases hr : readAllData s n with _ | rows
    · exact ih s upd target (fun m hm => h m (List.mem_cons_of_mem n hm))
    · rcases hu : upd rows with _ | rr
      · simp only [hu]
        exact ih s upd target (fun m hm => h m (List.mem_cons_of_mem n hm))
      · simp only [hu, readAllData_invalidateSheetCache]
        exact readAllData_setSheetRows_ne s n target rr
          (Ne.symm (h n (List.mem_cons_self n rest)))

theorem readAllData_makeRoomAvailable_booking (st : SheetsState)
    (rid : String) (target : String)
    (ht : strContains (pyLower target) "booking" = true) :
    readAllData (makeRoomAvailable st rid).2 target = readAllData st target := by
  unfold makeRoomAvailable
  exact readAllData_updateFirstSheet_frame _ _ _ _
    (fun m hm => mem_hotelTypedSheets_ne st m target hm ht)

theorem mem_monthlyArchive_contains_booking (s : SheetsState) (n : String)
    (hn : n ∈ monthlyArchiveSheets s) :
    strContains (pyLower n) "booking" = true := by
  have hf := (List.mem_filter.mp hn).2
  rw [Bool.and_eq_true] at hf
  have hpre : "bookings ".data.isPrefixOf (pyLower n).data = true := hf.1
  have hsub : "booking".data.isPrefixOf (pyLower n).data = true := by
    have t1 := List.isPrefixOf_iff_prefix.mp
      (by decide : ("booking".data.isPrefixOf "bookings ".data) = true)
    have t2 := List.isPrefixOf_iff_prefix.mp hpre
    exact List.isPrefixOf_iff_prefix.mpr (t1.trans t2)
  apply strContains_of_isPrefixOf
  · exact hsub
  · intro hnil
    rw [hnil] at hsub
    exact absurd hsub (by decide)

theorem sheetCheckoutIds_congr (today : PyDate) (hour : Nat)
    (st st2 : SheetsState) (n : String)
    (h : readAllData st2 n = readAllData st n) :
    sheetCheckoutIds today hour st2 n = sheetCheckoutIds today hour st n := by
  unfold sheetCheckoutIds
  rw [h]

theorem applyCheckouts_readAllData_booking :
    ∀ (rids : List String) (st : SheetsState) (target : String),
      strContains (pyLower target) "booking" = true →
      readAllData (applyCheckouts st rids) target = readAllData st target := by
  intro rids
  induction rids with
  | nil => intro st target ht; rfl
  | cons r rest ih =>
    intro st target ht
    show readAllData (applyCheckouts (makeRoomAvailable st r).2 rest) target
      = readAllData st target
    rw [ih _ target ht, readAllData_makeRoomAvailable_booking st r target ht]

theorem flatMap_congr_mem {α β : Type} :
    ∀ (l : List α) (f g : α → List β), (∀ x ∈ l, f x = g x) →
      l.flatMap f = l.flatMap g := by
  intro l
  induction l with
  | nil => intro f g h; rfl
  | cons a t ih =>
    intro f g h
    rw [List.flatMap_cons, List.flatMap_cons, h a (List.mem_cons_self a t),
      ih f g (fun x hx => h x (List.mem_cons_of_mem a hx))]

theorem sweepSheetRows_eq_fold (today : PyDate) (hour : Nat) (ci ri : Nat)
    (si : Option Nat) :
    ∀ (rows : List (List String)) (st : SheetsState),
      sweepSheetRows today hour ci ri si rows st
        = applyCheckouts st (rows.filterMap (fun row =>
            if checkoutQualifies today hour ci ri si row then
              some (pyStrip (row.getD ri ""))
            else none)) := by
  intro rows
  induction rows with
  | nil => intro st; rfl
  | cons row rest ih =>
    intro st
    simp only [sweepSheetRows]
    by_cases hq : checkoutQualifies today hour ci ri si row = true
    · have hf : (if checkoutQualifies today hour ci ri si row = true then
          some (pyStrip (row.getD ri "")) else none)
          = some (pyStrip (row.getD ri "")) := by
        rw [if_pos hq]
      rw [if_pos hq]
      simp only [List.filterMap_cons, hf]
      exact ih ((makeRoomAvailable st (pyStrip (row.getD ri ""))).2)
    · have hf : (if checkoutQualifies today hour ci ri si row = true then
          some (pyStrip (row.getD ri "")) else none) = none := by
        rw [if_neg hq]
      rw [if_neg hq]
      simp only [List.filterMap_cons, hf]
      exact ih st

theorem sweepSheets_eq_applyCheckouts (today : PyDate) (hour : Nat) :
    ∀ (L : List String) (st : SheetsState),
      (∀ n ∈ L, strContains (pyLower n) "booking" = true) →
      sweepSheets today hour L st
        = applyCheckouts st (L.flatMap (sheetCheckoutIds today hour st)) := by
  intro L
  induction L with
  | nil => intro st h; rfl
  | cons n rest ih =>
    intro st h
    have hrest : ∀ m ∈ rest, strContains (pyLower m) "booking" = true :=
      fun m hm => h m (List.mem_cons_of_mem n hm)
    rw [List.flatMap_cons]
    simp only [sweepSheets]
    rcases hr : readAllData st n with _ | data
    · have hids : sheetCheckoutIds today hour st n = [] := by
        unfold sheetCheckoutIds
        simp only [hr]
      rw [hids, List.nil_append]
      exact ih st hrest
    · simp only []
      by_cases hl : data.length < 2
      · have hids : sheetCheckoutIds today hour st n = [] := by
          unfold sheetCheckoutIds
          simp only [hr]
          rw [if_pos hl]
        rw [hids, List.nil_append, if_pos hl]
        exact ih st hrest
      · rw [if_neg hl]
        rcases hc : detectCheckoutCols (data.headD []) with ⟨oc, orid2, si2⟩
        rcases oc with _ | coIdx
        · have hids : sheetCheckoutIds today hour st n = [] := by
            unfold sheetCheckoutIds
            simp only [hr]
            rw [if_neg hl]
            simp only [hc]
          rw [hids, List.nil_append]
          simp only []
          exact ih st hrest
        · rcases orid2 with _ | ridIdx
          · have hids : sheetCheckoutIds today hour st n = [] := by
              unfold sheetCheckoutIds
              simp only [hr]
              rw [if_neg hl]
              simp only [hc]
            rw [hids, List.nil_append]
            simp only []
            exact ih st hrest
          · have hids : sheetCheckoutIds today hour st n
                = (data.drop 1).filterMap (fun row =>
                    if checkoutQualifies today hour coIdx ridIdx si2 row then
                      some (pyStrip (row.getD ridIdx ""))
                    else none) := by
              unfold sheetCheckoutIds
              simp only [hr]
              rw [if_neg hl]
              simp only [hc]
            rw [hids]
            simp only []
            rw [sweepSheetRows_eq_fold]
            rw [ih _ hrest]
            have hcongr : rest.flatMap (sheetCheckoutIds today hour
                (applyCheckouts st ((data.drop 1).filterMap (fun row =>
                  if checkoutQualifies today hour coIdx ridIdx si2 row then
                    some (pyStrip (row.getD ridIdx ""))
                  else none))))
                = rest.flatMap (sheetCheckoutIds today hour st) :=
              flatMap_congr_mem rest _ _ (fun m hm =>
                sheetCheckoutIds_congr today hour st _ m
                  (applyCheckouts_readAllData_booking _ st m (hrest m hm)))
            rw [hcongr]
            unfold applyCheckouts
            rw [List.foldl_append]

theorem updateFirstSheet_success :
    ∀ (L : List String) (s : SheetsState)
      (upd : List (List String) → Option (List (List String))),
      (updateFirstSheet s L upd).1 = true →
      ∃ n, n ∈ L ∧ ∃ rows rr,
        readAllData s n = some rows ∧ upd rows = some rr ∧
        (updateFirstSheet s L upd).2 = invalidateSheetCache (setSheetRows s n rr) n := by
  intro L
  induction L with
  | nil =>
    intro s upd h
    exact Bool.noConfusion h
  | cons n rest ih =>
    intro s upd h
    unfold updateFirstSheet at h ⊢
    rcases hr : readAllData s n with _ | rows
    · simp only [hr] at h ⊢
      obtain ⟨m, hm, rows, rr, h1, h2, h3⟩ := ih s upd h
      exact ⟨m, List.mem_cons_of_mem n hm, rows, rr, h1, h2, h3⟩
    · rcases hu : upd rows with _ | rr
      · simp only [hr, hu] at h ⊢
        obtain ⟨m, hm, rows2, rr2, h1, h2, h3⟩ := ih s upd h
        exact ⟨m, List.mem_cons_of_mem n hm, rows2, rr2, h1, h2, h3⟩
      · simp only [hr, hu] at h ⊢
        exact ⟨n, List.mem_cons_self n rest, rows, rr, hr, hu, rfl⟩

theorem updateAvailCellInSheet_yes (roomId : String)
    (rows rr : List (List String))
    (h : updateAvailCellInSheet roomId (fun _ => some "Yes") rows = some rr) :
    ∃ ric avc ridx1,
      detectAvailabilityCols (rows.headD []) = (some ric, some avc)
      ∧ findRowIdx1 (rows.drop 1) (fun row =>
          decide (ric < row.length) && (pyStrip (row.getD ric "") == pyStrip roomId))
          = some ridx1
      ∧ rr = wsUpdateCellAt rows (ridx1 + 1) (avc + 1) "Yes" := by
  unfold updateAvailCellInSheet at h
  by_cases hl : rows.length < 2
  · rw [if_pos hl] at h
    exact Option.noConfusion h
  · rw [if_neg hl] at h
    rcases hc : detectAvailabilityCols (rows.headD []) with ⟨oric, oavc⟩
    rw [hc] at h
    rcases oric with _ | ric
    · simp only [] at h
      exact Option.noConfusion h
    · rcases oavc with _ | avc
      · simp only [] at h
        exact Option.noConfusion h
      · simp only [] at h
        rcases hfind : findRowIdx1 (rows.drop 1) (fun row =>
            decide (ric < row.length)
            && (pyStrip (row.getD ric "") == pyStrip roomId)) with _ | ridx1
        · rw [hfind] at h
          exact Option.noConfusion h
        · rw [hfind] at h
          simp only [] at h
          by_cases hrl : avc < ((rows.drop 1).getD (ridx1 - 1) []).length
          · rw [if_pos hrl] at h
            rw [Option.some.injEq] at h
            exact ⟨ric, avc, ridx1, rfl, hfind, h.symm⟩
          · rw [if_neg hrl] at h
            exact Option.noConfusion h

theorem not_mem_cache_invalidate (s : SheetsState) (n : String) :
    ¬ n ∈ (invalidateSheetCache s n).cache := by
  intro hmem
  have h2 := (List.mem_filter.mp hmem).2
  simp at h2

theorem makeRoomAvailable_success (st : SheetsState) (rid : String)
    (h : (makeRoomAvailable st rid).1 = true) :
    ∃ n ric avc ridx1 rows,
      n ∈ hotelTypedSheets st
      ∧ readAllData st n = some rows
      ∧ detectAvailabilityCols (rows.headD []) = (some ric, some avc)
      ∧ findRowIdx1 (rows.drop 1) (fun row =>
          decide (ric < row.length) && (pyStrip (row.getD ric "") == pyStrip rid))
          = some ridx1
      ∧ sheetRows (makeRoomAvailable st rid).2 n
          = wsUpdateCellAt rows (ridx1 + 1) (avc + 1) "Yes"
      ∧ ¬ n ∈ ((makeRoomAvailable st rid).2).cache := by
  have h2 : (updateFirstSheet st (hotelTypedSheets st)
      (updateAvailCellInSheet rid (fun _ => some "Yes"))).1 = true := h
  obtain ⟨n, hmem, rows, rr, hread, hupd, heq⟩ :=
    updateFirstSheet_success (hotelTypedSheets st) st _ h2
  obtain ⟨ric, avc, ridx1, hcols, hfind, hrr⟩ :=
    updateAvailCellInSheet_yes rid rows rr hupd
  have hsome : (findSheet st n).isSome := by
    unfold readAllData at hread
    rcases hf : findSheet st n with _ | sh
    · rw [hf] at hread
      exact Option.noConfusion hread
    · rfl
  refine ⟨n, ric, avc, ridx1, rows, hmem, hread, hcols, hfind, ?_, ?_⟩
  · show sheetRows (updateFirstSheet st (hotelTypedSheets st)
      (updateAvailCellInSheet rid (fun _ => some "Yes"))).2 n = _
    rw [heq, sheetRows_invalidateSheetCache, sheetRows_setSheetRows st n rr hsome]
    exact hrr
  · show ¬ n ∈ ((updateFirstSheet st (hotelTypedSheets st)
      (updateAvailCellInSheet rid (fun _ => some "Yes"))).2).cache
    rw [heq]
    exact not_mem_cache_invalidate _ n

theorem checkoutQualifies_iff (today : PyDate) (hour : Nat) (ci ri : Nat)
    (si : Option Nat) (row : List String) :
    checkoutQualifies today hour ci ri si row = true ↔
      (max ci ri < row.length
       ∧ (checkoutRowStatus si row = "approved" ∨ checkoutRowStatus si row = "confirmed")
       ∧ pyStrip (row.getD ci "") ≠ ""
       ∧ pyStrip (row.getD ri "") ≠ ""
       ∧ ∃ cod, parseCheckoutDate (pyStrip (row.getD ci "")) = some cod
           ∧ (dateLt cod today = true ∨ (cod = today ∧ 11 ≤ hour))) := by
  unfold checkoutQualifies
  by_cases h1 : row.length ≤ max ci ri
  · rw [if_pos h1]
    constructor
    · intro hfalse
      exact absurd hfalse Bool.false_ne_true
    · rintro ⟨hlen, -⟩
      omega
  · rw [if_neg h1]
    have hlen : max ci ri < row.length := Nat.lt_of_not_le h1
    rcases hst : (["approved", "confirmed"].contains (checkoutRowStatus si row)) with _ | _
    · rw [if_pos (by rfl)]
      constructor
      · intro hfalse
        exact absurd hfalse Bool.false_ne_true
      · rintro ⟨-, hs, -⟩
        have hcontains : (["approved", "confirmed"].contains
            (checkoutRowStatus si row)) = true := by
          rcases hs with hs | hs <;> rw [hs] <;> decide
        rw [hst] at hcontains
        exact Bool.noConfusion hcontains
    · rw [if_neg (by simp)]
      rcases hemp : ((pyStrip (row.getD ci "") == "")
          || (pyStrip (row.getD ri "") == "")) with _ | _
      · rw [if_neg (by simp)]
        have hemp1 : pyStrip (row.getD ci "") ≠ "" := by
          intro he
          rw [he] at hemp
          simp at hemp
        have hemp2 : pyStrip (row.getD ri "") ≠ "" := by
          intro he
          rw [he] at hemp
          simp at hemp
        have hstat : checkoutRowStatus si row = "approved"
            ∨ checkoutRowStatus si row = "confirmed" := by
          have hmem : checkoutRowStatus si row ∈ ["approved", "confirmed"] := by
            simpa using hst
          simpa using hmem
        rcases hp : parseCheckoutDate (pyStrip (row.getD ci "")) with _ | cod
        · constructor
          · intro hfalse
            exact absurd hfalse Bool.false_ne_true
          · rintro ⟨-, -, -, -, cod, hcod, -⟩
            exact Option.noConfusion hcod
        · simp only []
          constructor
          · intro ht
            refine ⟨hlen, hstat, hemp1, hemp2, cod, rfl, ?_⟩
            by_cases hd : dateLt cod today = true
            · exact Or.inl hd
            · rw [if_neg hd] at ht
              by_cases he : ((cod == today) && decide (11 ≤ hour)) = true
              · right
                rw [Bool.and_eq_true] at he
                exact ⟨by simpa using he.1, by simpa using he.2⟩
              · rw [if_neg he] at ht
                exact absurd ht Bool.false_ne_true
          · rintro ⟨-, -, -, -, cod2, hcod2, hdisj⟩
            have hcc : cod = cod2 := by injection hcod2
            subst hcc
            rcases hdisj with hd | ⟨heq2, hh⟩
            · rw [if_pos hd]
            · by_cases hd : dateLt cod today = true
              · rw [if_pos hd]
              · rw [if_neg hd, if_pos (by rw [heq2]; simp [hh])]
      · rw [if_pos rfl]
        constructor
        · intro hfalse
          exact absurd hfalse Bool.false_ne_true
        · rintro ⟨-, -, he1, he2, -⟩
          rw [Bool.or_eq_true] at hemp
          rcases hemp with hx | hx
          · exact absurd (by simpa using hx : pyStrip (row.getD ci "") = "") he1
          · exact absurd (by simpa using hx : pyStrip (row.getD ri "") = "") he2

/-- C9: one pass of the auto-checkout sweep over the monthly archive sheets
releases exactly the rooms of the qualifying rows, in order: (i) the pass
equals releasing, via `_make_room_available`, each room id collected from the
qualifying rows of every archive sheet; (ii) a row qualifies iff its status is
`approved` or `confirmed`, its checkout and room-id cells are non-empty, and
its parsable checkout date is before today or equal to today with the hour at
least 11 — any other row triggers nothing; (iii) each successful release
locates the room's row in a hotel-typed sheet, rewrites its availability cell
to `Yes`, and leaves that sheet absent from the cache. -/
theorem claim9_auto_checkout_sweep :
    (∀ s : SheetsState,
      processAutoCheckout s = applyCheckouts s (checkoutRoomIds s))
    ∧ (∀ (today : PyDate) (hour : Nat) (ci ri : Nat) (si : Option Nat)
        (row : List String),
        checkoutQualifies today hour ci ri si row = true ↔
          (max ci ri < row.length
           ∧ (checkoutRowStatus si row = "approved"
              ∨ checkoutRowStatus si row = "confirmed")
           ∧ pyStrip (row.getD ci "") ≠ ""
           ∧ pyStrip (row.getD ri "") ≠ ""
           ∧ ∃ cod, parseCheckoutDate (pyStrip (row.getD ci "")) = some cod
               ∧ (dateLt cod today = true ∨ (cod = today ∧ 11 ≤ hour))))
    ∧ (∀ (st : SheetsState) (rid : String),
        (makeRoomAvailable st rid).1 = true →
        ∃ n ric avc ridx1 rows,
          n ∈ hotelTypedSheets st
          ∧ readAllData st n = some rows
          ∧ detectAvailabilityCols (rows.headD []) = (some ric, some avc)
          ∧ findRowIdx1 (rows.drop 1) (fun row =>
              decide (ric < row.length) && (pyStrip (row.getD ric "") == pyStrip rid))
              = some ridx1
          ∧ sheetRows (makeRoomAvailable st rid).2 n
              = wsUpdateCellAt rows (ridx1 + 1) (avc + 1) "Yes"
          ∧ ¬ n ∈ ((makeRoomAvailable st rid).2).cache) := by
  refine ⟨?_, checkoutQualifies_iff, makeRoomAvailable_success⟩
  intro s
  unfold processAutoCheckout checkoutRoomIds
  exact sweepSheets_eq_applyCheckouts s.today s.hour (monthlyArchiveSheets s) s
    (fun n hn => mem_monthlyArchive_contains_booking s n hn)

/-- Witness for C9: in the concrete two-sheet state the sweep equation holds,
the qualifying row is recognised, and releasing `R1` succeeds, rewrites the
availability cell of the `Rooms` sheet and drops it from the cache. -/
theorem claim9_witness :
    processAutoCheckout c9WitState
      = applyCheckouts c9WitState (checkoutRoomIds c9WitState)
    ∧ checkoutQualifies ⟨2026, 2, 1⟩ 12 1 2 (some 3)
        ["BK1", "2026-01-05", "R1", "approved"] = true
    ∧ (∃ n ric avc ridx1 rows,
        n ∈ hotelTypedSheets c9WitState
        ∧ readAllData c9WitState n = some rows
        ∧ detectAvailabilityCols (rows.headD []) = (some ric, some avc)
        ∧ findRowIdx1 (rows.drop 1) (fun row =>
            decide (ric < row.length) && (pyStrip (row.getD ric "") == pyStrip "R1"))
            = some ridx1
        ∧ sheetRows (makeRoomAvailable c9WitState "R1").2 n
            = wsUpdateCellAt rows (ridx1 + 1) (avc + 1) "Yes"
        ∧ ¬ n ∈ ((makeRoomAvailable c9WitState "R1").2).cache) := by
  refine ⟨claim9_auto_checkout_sweep.1 c9WitState, ?_, ?_⟩
  · refine (claim9_auto_checkout_sweep.2.1 ⟨2026, 2, 1⟩ 12 1 2 (some 3)
      ["BK1", "2026-01-05", "R1", "approved"]).mpr ?_
    refine ⟨by decide, Or.inl (by decide), by decide, by decide,
      ⟨2026, 1, 5⟩, by decide, Or.inl (by decide)⟩
  · exact claim9_auto_checkout_sweep.2.2 c9WitState "R1" (by decide)

end ChatbotSpec
